import Mathlib

/-!
Formal model of the freshAgent repository: the ReAct agent loop
(`freshagent/agent.py`), the tool registry (`freshagent/tools.py`) and the
FreshPrompt evidence assembly (`core/search_result_formatters.py`),
together with theorems settling the specification's claims about them.

Modelling conventions:
* Python strings are Lean `String`s; `str.strip` and the `\s` character
  class are modelled over ASCII whitespace (the prompts and markers the
  claims mention are ASCII).
* JSON values are the inductive `JValue`; Python integers are `Int`
  (floats do not occur on any modelled path).
* The LLM backend (`core/llm_api.call_llm_messages`) is an oracle
  parameter: a total function from the request (messages, tools,
  max_tokens) to an optional assistant message, mirroring the
  `out.get("message")` shape of the source.
* `json.loads` is an abstract total parameter `parse : String → Option
  JValue`; a `none` result models the `except` branch of agent.py 310-313.
* An uncaught Python exception is modelled as `Except.error`; the agent
  loop propagates it, ending the run without a string answer.
-/

/-- ASCII fragment of Python's `\s` / `str.strip` whitespace. -/
def isPySpace (c : Char) : Bool :=
  c = ' ' || c = '\t' || c = '\n' || c = '\r' || c = '\x0b' || c = '\x0c'

/-- Python `str.strip()` on the character list. -/
def pyStripList (cs : List Char) : List Char :=
  ((cs.dropWhile isPySpace).reverse.dropWhile isPySpace).reverse

/-- Python `str.strip()`. -/
def pyStrip (s : String) : String :=
  String.mk (pyStripList s.toList)

def listIsPrefixOf : List Char → List Char → Bool
  | [], _ => true
  | _ :: _, [] => false
  | a :: as, b :: bs => a = b && listIsPrefixOf as bs

def listIsInfixOf (sub : List Char) : List Char → Bool
  | [] => listIsPrefixOf sub []
  | c :: rest => listIsPrefixOf sub (c :: rest) || listIsInfixOf sub rest

/-- Python `sub in s` (substring containment). -/
def containsSub (s sub : String) : Bool :=
  listIsInfixOf sub.toList s.toList

def pyLinesList : List Char → List (List Char)
  | [] => [[]]
  | c :: rest =>
    if c = '\n' then [] :: pyLinesList rest
    else
      match pyLinesList rest with
      | [] => [[c]]
      | l :: ls => (c :: l) :: ls

/-- Python `str.splitlines()` restricted to `\n` separators. -/
def pyLines (s : String) : List String :=
  (pyLinesList s.toList).map String.mk

def charListLt : List Char → List Char → Bool
  | [], [] => false
  | [], _ :: _ => true
  | _ :: _, [] => false
  | a :: as, b :: bs =>
    if a < b then true else if b < a then false else charListLt as bs

/-- Lexicographic string comparison by code point (Python `<` on `str`). -/
def strLtB (a b : String) : Bool :=
  charListLt a.toList b.toList

def strStartsWith (s p : String) : Bool :=
  listIsPrefixOf p.toList s.toList

/-- JSON values (`json.loads` results and tool payloads). -/
inductive JValue where
  | null : JValue
  | bool (b : Bool) : JValue
  | num (n : Int) : JValue
  | str (s : String) : JValue
  | arr (xs : List JValue) : JValue
  | obj (kvs : List (String × JValue)) : JValue

mutual

/-- Structural equality on JSON values (Python `==` on the modelled fragment). -/
def jBeq : JValue → JValue → Bool
  | .null, .null => true
  | .bool a, .bool b => a = b
  | .num a, .num b => a = b
  | .str a, .str b => a = b
  | .arr a, .arr b => jBeqArr a b
  | .obj a, .obj b => jBeqObj a b
  | _, _ => false

def jBeqArr : List JValue → List JValue → Bool
  | [], [] => true
  | a :: as, b :: bs => jBeq a b && jBeqArr as bs
  | _, _ => false

def jBeqObj : List (String × JValue) → List (String × JValue) → Bool
  | [], [] => true
  | (k, a) :: as, (l, b) :: bs => k = l && jBeq a b && jBeqObj as bs
  | _, _ => false

end

/-- Python truthiness of a JSON-shaped value. -/
def jTruthy : JValue → Bool
  | .null => false
  | .bool b => b
  | .num n => n ≠ 0
  | .str s => s ≠ ""
  | .arr xs => !xs.isEmpty
  | .obj kvs => !kvs.isEmpty

/-- `dict.get(key)`: first binding wins, `none` when absent. -/
def jLookup (kvs : List (String × JValue)) (key : String) : Option JValue :=
  match kvs with
  | [] => none
  | (k, v) :: rest => if k = key then some v else jLookup rest key

/-- `dict.get(key, default)`. -/
def jGet (kvs : List (String × JValue)) (key : String) (dflt : JValue) : JValue :=
  (jLookup kvs key).getD dflt

/-- JSON string escaping as `json.dumps` performs it (`ensure_ascii=False`;
common control characters escaped, other characters kept verbatim). -/
def jsonEscapeChar (c : Char) : String :=
  if c = '"' then "\\\""
  else if c = '\\' then "\\\\"
  else if c = '\n' then "\\n"
  else if c = '\t' then "\\t"
  else if c = '\r' then "\\r"
  else String.mk [c]

def jsonEscape (s : String) : String :=
  String.join (s.toList.map jsonEscapeChar)

def jsonQuote (s : String) : String :=
  "\"" ++ jsonEscape s ++ "\""

mutual

/-- `json.dumps(v, ensure_ascii=False)` with the default separators. -/
def jsonDumps : JValue → String
  | .null => "null"
  | .bool b => if b then "true" else "false"
  | .num n => toString n
  | .str s => jsonQuote s
  | .arr xs => "[" ++ jsonDumpsArr xs ++ "]"
  | .obj kvs => "\x7b" ++ jsonDumpsObj kvs ++ "\x7d"

def jsonDumpsArr : List JValue → String
  | [] => ""
  | [x] => jsonDumps x
  | x :: rest => jsonDumps x ++ ", " ++ jsonDumpsArr rest

def jsonDumpsObj : List (String × JValue) → String
  | [] => ""
  | [(k, v)] => jsonQuote k ++ ": " ++ jsonDumps v
  | (k, v) :: rest => jsonQuote k ++ ": " ++ jsonDumps v ++ ", " ++ jsonDumpsObj rest

end

/-- `n` levels of two-space indentation. -/
def indentSp (n : Nat) : String :=
  String.mk (List.replicate (2 * n) ' ')

mutual

/-- `json.dumps(v, ensure_ascii=False, indent=2)` at nesting level `lvl`. -/
def jsonDumpsInd : Nat → JValue → String
  | _, .null => "null"
  | _, .bool b => if b then "true" else "false"
  | _, .num n => toString n
  | _, .str s => jsonQuote s
  | _, .arr [] => "[]"
  | lvl, .arr (x :: xs) =>
      "[\n" ++ String.intercalate ",\n" (jsonDumpsIndArr (lvl + 1) (x :: xs)) ++
        "\n" ++ indentSp lvl ++ "]"
  | _, .obj [] => "\x7b\x7d"
  | lvl, .obj (kv :: kvs) =>
      "\x7b\n" ++ String.intercalate ",\n" (jsonDumpsIndObj (lvl + 1) (kv :: kvs)) ++
        "\n" ++ indentSp lvl ++ "\x7d"

def jsonDumpsIndArr : Nat → List JValue → List String
  | _, [] => []
  | lvl, x :: xs => (indentSp lvl ++ jsonDumpsInd lvl x) :: jsonDumpsIndArr lvl xs

def jsonDumpsIndObj : Nat → List (String × JValue) → List String
  | _, [] => []
  | lvl, (k, v) :: kvs =>
      (indentSp lvl ++ jsonQuote k ++ ": " ++ jsonDumpsInd lvl v) ::
        jsonDumpsIndObj lvl kvs

end

/-- `json.dumps(v, ensure_ascii=False, indent=2)`. -/
def jsonDumps2 (v : JValue) : String :=
  jsonDumpsInd 0 v

/-!
## Calculator tool: the fragment of Python `eval` it relies on

`freshagent/tools.py` `_calc_impl` runs `eval(expr, {"__builtins__": {}})`.
`eval` with empty builtins still evaluates full Python expressions; this
model implements the fragment needed by the claims: integer literals,
single-quoted string literals, unary minus, `+`, `-`, `*` and parentheses,
with Python's semantics for them (including string concatenation and
string repetition, which are *not* arithmetic).  Expressions outside the
fragment are modelled as evaluation errors; real `eval` accepts more, so
nothing here claims that every non-arithmetic expression errors — and
indeed the theorems below show the opposite on the modelled fragment.
Exception message texts are modelled, not byte-identical to CPython's.
-/

/-- Values of the modelled `eval` fragment. -/
inductive PyVal where
  | int (n : Int) : PyVal
  | str (s : String) : PyVal

inductive CalcTok where
  | int (n : Nat) : CalcTok
  | str (s : String) : CalcTok
  | plus : CalcTok
  | minus : CalcTok
  | star : CalcTok
  | lparen : CalcTok
  | rparen : CalcTok
deriving DecidableEq

def digitsToNat (ds : List Char) : Nat :=
  ds.foldl (fun acc c => acc * 10 + (c.toNat - '0'.toNat)) 0

/-- Tokenizer for the `eval` fragment (fuel-driven; fuel is never exhausted
when called with `length + 1`). -/
def calcTokenize : Nat → List Char → Except String (List CalcTok)
  | 0, _ => .error "SyntaxError: invalid syntax"
  | _, [] => .ok []
  | fuel + 1, c :: rest =>
    if isPySpace c then calcTokenize fuel rest
    else if c.isDigit then
      match calcTokenize fuel (rest.dropWhile Char.isDigit) with
      | .error e => .error e
      | .ok ts => .ok (.int (digitsToNat (c :: rest.takeWhile Char.isDigit)) :: ts)
    else if c = '\x27' then
      let body := rest.takeWhile (fun d => d ≠ '\x27')
      match rest.dropWhile (fun d => d ≠ '\x27') with
      | [] => .error "SyntaxError: unterminated string literal"
      | _ :: rest' =>
        match calcTokenize fuel rest' with
        | .error e => .error e
        | .ok ts => .ok (.str (String.mk body) :: ts)
    else if c = '+' then (calcTokenize fuel rest).map (.plus :: ·)
    else if c = '-' then (calcTokenize fuel rest).map (.minus :: ·)
    else if c = '*' then (calcTokenize fuel rest).map (.star :: ·)
    else if c = '(' then (calcTokenize fuel rest).map (.lparen :: ·)
    else if c = ')' then (calcTokenize fuel rest).map (.rparen :: ·)
    else .error "SyntaxError: invalid syntax"

/-- Python `+` on the fragment. -/
def pyAdd : PyVal → PyVal → Except String PyVal
  | .int a, .int b => .ok (.int (a + b))
  | .str a, .str b => .ok (.str (a ++ b))
  | _, _ => .error "TypeError: unsupported operand type(s) for +"

/-- Python binary `-` on the fragment. -/
def pySub : PyVal → PyVal → Except String PyVal
  | .int a, .int b => .ok (.int (a - b))
  | _, _ => .error "TypeError: unsupported operand type(s) for -"

/-- Python `*` on the fragment (including string repetition). -/
def pyMul : PyVal → PyVal → Except String PyVal
  | .int a, .int b => .ok (.int (a * b))
  | .str s, .int n => .ok (.str (String.join (List.replicate n.toNat s)))
  | .int n, .str s => .ok (.str (String.join (List.replicate n.toNat s)))
  | _, _ => .error "TypeError: cannot multiply sequence by non-int"

/-- Python unary `-` on the fragment. -/
def pyNeg : PyVal → Except String PyVal
  | .int a => .ok (.int (-a))
  | _ => .error "TypeError: bad operand type for unary -"

mutual

/-- `atom := INT | STR | ( sum ) | - factor` evaluated in place. -/
def calcAtom : Nat → List CalcTok → Except String (PyVal × List CalcTok)
  | 0, _ => .error "SyntaxError: invalid syntax"
  | _, [] => .error "SyntaxError: unexpected EOF while parsing"
  | fuel + 1, t :: ts =>
    match t with
    | .int n => .ok (.int (Int.ofNat n), ts)
    | .str s => .ok (.str s, ts)
    | .minus =>
      match calcAtom fuel ts with
      | .error e => .error e
      | .ok (v, rest) =>
        match pyNeg v with
        | .error e => .error e
        | .ok v' => .ok (v', rest)
    | .lparen =>
      match calcSum fuel ts with
      | .error e => .error e
      | .ok (v, rest) =>
        match rest with
        | .rparen :: rest' => .ok (v, rest')
        | _ => .error "SyntaxError: invalid syntax"
    | _ => .error "SyntaxError: invalid syntax"

/-- `term := atom (* atom)*` evaluated in place. -/
def calcTerm : Nat → List CalcTok → Except String (PyVal × List CalcTok)
  | 0, _ => .error "SyntaxError: invalid syntax"
  | fuel + 1, ts =>
    match calcAtom fuel ts with
    | .error e => .error e
    | .ok (v, rest) => calcTermLoop fuel v rest

def calcTermLoop : Nat → PyVal → List CalcTok → Except String (PyVal × List CalcTok)
  | 0, _, _ => .error "SyntaxError: invalid syntax"
  | fuel + 1, acc, ts =>
    match ts with
    | .star :: rest =>
      match calcAtom fuel rest with
      | .error e => .error e
      | .ok (v, rest') =>
        match pyMul acc v with
        | .error e => .error e
        | .ok acc' => calcTermLoop fuel acc' rest'
    | _ => .ok (acc, ts)

/-- `sum := term ((+|-) term)*` evaluated in place. -/
def calcSum : Nat → List CalcTok → Except String (PyVal × List CalcTok)
  | 0, _ => .error "SyntaxError: invalid syntax"
  | fuel + 1, ts =>
    match calcTerm fuel ts with
    | .error e => .error e
    | .ok (v, rest) => calcSumLoop fuel v rest

def calcSumLoop : Nat → PyVal → List CalcTok → Except String (PyVal × List CalcTok)
  | 0, _, _ => .error "SyntaxError: invalid syntax"
  | fuel + 1, acc, ts =>
    match ts with
    | .plus :: rest =>
      match calcTerm fuel rest with
      | .error e => .error e
      | .ok (v, rest') =>
        match pyAdd acc v with
        | .error e => .error e
        | .ok acc' => calcSumLoop fuel acc' rest'
    | .minus :: rest =>
      match calcTerm fuel rest with
      | .error e => .error e
      | .ok (v, rest') =>
        match pySub acc v with
        | .error e => .error e
        | .ok acc' => calcSumLoop fuel acc' rest'
    | _ => .ok (acc, ts)

end

/-- `eval(expr, {"__builtins__": {}})` on the modelled fragment.
An error models a raised exception (caught by `_calc_impl`). -/
def pyEval (expr : String) : Except String PyVal :=
  match calcTokenize (expr.toList.length + 1) expr.toList with
  | .error e => .error e
  | .ok [] => .error "SyntaxError: unexpected EOF while parsing"
  | .ok ts =>
    match calcSum (ts.length + 1) ts with
    | .error e => .error e
    | .ok (v, []) => .ok v
    | .ok (_, _ :: _) => .error "SyntaxError: invalid syntax"

mutual

/-- Python `repr` of a JSON-shaped value (fragment; used by `str()` on
containers, which no modelled path exercises for nested values). -/
def pyReprJ : JValue → String
  | .null => "None"
  | .bool b => if b then "True" else "False"
  | .num n => toString n
  | .str s => "\x27" ++ s ++ "\x27"
  | .arr xs => "[" ++ String.intercalate ", " (pyReprJList xs) ++ "]"
  | .obj kvs => "\x7b" ++ String.intercalate ", " (pyReprJObj kvs) ++ "\x7d"

def pyReprJList : List JValue → List String
  | [] => []
  | x :: xs => pyReprJ x :: pyReprJList xs

def pyReprJObj : List (String × JValue) → List String
  | [] => []
  | (k, v) :: kvs => ("\x27" ++ k ++ "\x27: " ++ pyReprJ v) :: pyReprJObj kvs

end

/-- Python `str()` of a JSON-shaped value. -/
def pyStrJ : JValue → String
  | .str s => s
  | v => pyReprJ v

def pyValToJ : PyVal → JValue
  | .int n => .num n
  | .str s => .str s

/-- `_calc_impl` (tools.py 75-81) on a dict argument: evaluate
`str(args.get("expression", ""))` and wrap the outcome. -/
def calcImpl (kvs : List (String × JValue)) : JValue :=
  match pyEval (pyStrJ (jGet kvs "expression" (.str ""))) with
  | .ok v => .obj [("ok", .bool true), ("result", pyValToJ v)]
  | .error e => .obj [("ok", .bool false), ("error", .str e)]

/-- `_calc_impl` as called by the dispatcher: a non-dict argument raises
(`args.get` is evaluated before the `try` block). -/
def calcFunc : JValue → Except String JValue
  | .obj kvs => .ok (calcImpl kvs)
  | _ => .error "AttributeError: object has no attribute \x27get\x27"

/-- `_google_impl` (tools.py 50-57): the whole search-and-format pipeline
runs inside `try`, so a dict argument never raises; the external pipeline
is the oracle `search question provider`, whose `.error` models any raised
exception.  A non-dict argument raises at `args.get` before the `try`. -/
def googleFunc (search : JValue → JValue → Except String String) :
    JValue → Except String JValue
  | .obj kvs =>
    match search (jGet kvs "question" (.str "")) (jGet kvs "provider" (.str "serper")) with
    | .ok p => .ok (.obj [("ok", .bool true), ("question", jGet kvs "question" (.str "")),
        ("prompt", .str p)])
    | .error e => .ok (.obj [("ok", .bool false), ("error", .str e)])
  | _ => .error "AttributeError: object has no attribute \x27get\x27"

/-- A registered tool (tools.py `Tool`); `func`'s `.error` models an
uncaught exception escaping the tool. -/
structure Tool where
  name : String
  description : String
  json_schema : JValue
  func : JValue → Except String JValue

def googleSchema : JValue :=
  .obj [("type", .str "object"),
        ("properties", .obj [
          ("question", .obj [("type", .str "string")]),
          ("provider", .obj [("type", .str "string"),
            ("enum", .arr [.str "serper", .str "serpapi"])])]),
        ("required", .arr [.str "question"])]

def calculatorSchema : JValue :=
  .obj [("type", .str "object"),
        ("properties", .obj [("expression", .obj [("type", .str "string")])]),
        ("required", .arr [.str "expression"])]

def googleTool (search : JValue → JValue → Except String String) : Tool :=
  { name := "google"
    description := "Search the web and return a FreshPrompt-style evidence block."
    json_schema := googleSchema
    func := googleFunc search }

def calculatorTool : Tool :=
  { name := "calculator"
    description := "Safely evaluate a simple arithmetic expression like \x272+2*3\x27."
    json_schema := calculatorSchema
    func := calcFunc }

/-- `TOOL_REGISTRY` (tools.py 95-98), in insertion order. -/
def TOOL_REGISTRY (search : JValue → JValue → Except String String) :
    List (String × Tool) :=
  [("google", googleTool search), ("calculator", calculatorTool)]

def regLookup : List (String × Tool) → String → Option Tool
  | [], _ => none
  | (k, t) :: rest, key => if k = key then some t else regLookup rest key

/-- `tools_to_openai_format` (tools.py 15-26). -/
def toolsToOpenaiFormat (reg : List (String × Tool)) : List JValue :=
  reg.map (fun kt =>
    .obj [("type", .str "function"),
          ("function", .obj [
            ("name", .str kt.2.name),
            ("description", .str kt.2.description),
            ("parameters", kt.2.json_schema)])])

/-- Modelled from the spec: the required-properties part of JSON-Schema
validation of a tool's arguments ("arguments are validated against that
tool's schema before dispatch").  No such check exists anywhere in the
source; this definition exists only to state that absence. -/
def schemaRequiredOk (schema : JValue) (args : JValue) : Bool :=
  match args with
  | .obj kvs =>
    (match jLookup (match schema with | .obj skvs => skvs | _ => []) "required" with
     | some (.arr req) =>
       req.all (fun r => match r with
         | .str k => (jLookup kvs k).isSome
         | _ => true)
     | _ => true)
  | _ => false
/-- prompts.py `REACT_PROMPT` after its first line (which carries the `{TODAY}` placeholder). -/
def REACT_PROMPT_BODY : String :=
  String.intercalate "\n"
  ["",
   "You are an agent that reasons step by step using a loop of:",
   "(1) think about what you still need,",
   "(2) ask ONE focused question to a tool,",
   "(3) read the evidence,",
   "(4) update your plan,",
   "(5) repeat if needed.",
   "",
   "IMPORTANT CORE RULES",
   "- You must act sequentially. In each round, you may issue ONE and only ONE external retrieval request (one tool call).",
   "- You must not batch multiple queries in advance.",
   "- Each new question must be based on the updated plan after reading the latest evidence, not on an outdated prior plan.",
   "",
   "Why: We want to ensure that each new piece of evidence can actually update your reasoning path.",
   "For example, if you first ask \"Who is the current president?\" and then learn the answer,",
   "your subsequent questions may change entirely—you might no longer need to ask \"What crimes did the former president commit?\",",
   "or you might use the verified name instead of a guess.",
   "",
   "Before using any tools in a new conversation, WRITE these two blocks:",
   "",
   "1) Time-Reason (2–4 lines, plain text):",
   "   - Today’s date/timezone.",
   "   - Which parts of the user’s question are time-varying (e.g., “current”, “former”, “most recent”, “price”, “ranking”, etc.)?",
   "   - What time window should we care about? If unclear, write \"unspecified\".",
   "",
   "2) Fact Ladder:",
   "   - List 2–5 minimal prerequisite facts you MUST verify *in order* before answering the final question.",
   "     Each prerequisite should belong to one of these categories:",
   "       • Identity — e.g., \"Who currently holds the office?\"",
   "       • Timeframe — e.g., \"As of what date does this apply?\"",
   "       • Definition / Status — e.g., \"Has this person resigned / been convicted / announced / stated?\"",
   "       • Wording / Quote — e.g., \"What exact phrase appears in the official title or statement?\"",
   "       • Mapping / Other — relational or numerical conditions.",
   "",
   "   - For EACH prerequisite, explain in natural language how you will verify it using a tool.",
   "",
   "   IMPORTANT:",
   "   • If the question involves *wording* (e.g., how something is described, titled, or quoted),",
   "     you MUST include a Wording/Quote prerequisite.",
   "   • When verifying a Wording prerequisite, your tool query should explicitly target *verbatim phrases* or *quoted text*",
   "     using expressions like “bio now reads”, “calls himself”, “profile now says”, “lists as”, “exact wording”, or “quotes”.",
   "   • Do NOT rely on memory for wording; confirm it with fresh, cited evidence.",
   "",
   "Tool Discipline:",
   "- In each step, you are allowed to issue AT MOST ONE tool call.",
   "- When calling a tool, ONLY target the next unresolved prerequisite in your ladder.",
   "- Do NOT skip ahead. For example, do not ask \"what crimes X was convicted of\" before confirming X’s identity.",
   "- After receiving tool evidence, STOP. Do not immediately call another tool. You must first update your reasoning.",
   "",
   "After receiving a tool response:",
   "- Restate the prerequisite you were trying to verify.",
   "- Mark it as Verified, Contradicted, or Still Unclear (with a short justification).",
   "- Update your Fact Ladder (mark resolved ones).",
   "- Decide the single next prerequisite to verify next.",
   "- ONLY THEN—and only if needed—call ONE new tool focused solely on that next prerequisite.",
   "",
   "Premise Handling:",
   "- The user’s question may contain false or unverified assumptions (e.g., \"the most recent former President was convicted of two crimes\").",
   "- You MUST NOT assume the premise is true.",
   "- Treat it as a hypothesis to check. Your first steps should verify identity and status before assuming any claims.",
   "",
   "Final Answer — Answer Contract (when you finish or cannot continue):",
   "- Premise: <True | False | Uncertain + short reason>",
   "- Verdict: <Yes | No | Uncertain>",
   "- Direct Answer: <1 concise sentence that directly resolves the user’s question>",
   "- Key Facts: <1–3 bullet points with sources and dates/figures if available>",
   "- If Needed: <short note about evidence gaps, ambiguity, or next steps>",
   "",
   "General Rules:",
   "- Prefer tool evidence over your memory for time-sensitive facts.",
   "- If evidence is missing, stale, or contradictory, say \"Uncertain\" and explain why.",
   "- Do not introduce new entity names in later steps unless already verified.",
   "- Each tool question must derive from the most recent evidence, not from an old guess.",
   ""]

/-- `render_react_prompt` (prompts.py 16-18): `REACT_PROMPT.format(TODAY=today)`. -/
def renderReactPrompt (today : String) : String :=
  "Today is " ++ today ++ ".\n" ++ REACT_PROMPT_BODY

/-- prompts.py `REFLECT_AFTER_TOOL`, verbatim. -/
def REFLECT_AFTER_TOOL : String :=
  String.intercalate "\n"
  ["You have just received tool evidence.",
   "",
   "NOW DO NOT CALL ANY TOOL YET.",
   "",
   "Your next assistant message MUST follow this exact 4-part structure:",
   "",
   "1) Prerequisite You Were Checking:",
   "   - State which prerequisite (from your Fact Ladder) you were verifying.",
   "   - Quote it in plain language.",
   "",
   "2) Evidence-Based Status:",
   "   - Based ONLY on the evidence you just saw (not your memory), mark that prerequisite as:",
   "     • Verified",
   "     • Contradicted",
   "     • Still Unclear (evidence stale, conflicting, or off-topic)",
   "   - Briefly justify your assessment.",
   "",
   "3) Updated Fact Ladder:",
   "   - Rewrite your Fact Ladder as a short ordered list.",
   "   - For each prerequisite, mark [Verified], [Contradicted], or [Unresolved].",
   "   - Identify exactly ONE prerequisite that still needs verification to answer the user’s question.",
   "",
   "4) Next Step:",
   "   - If all prerequisites are now [Verified] (or [Contradicted] in a way that invalidates the premise),",
   "     STOP tool usage and provide the Final Answer using the Answer Contract.",
   "   - ELSE, propose EXACTLY ONE new tool question for the next round.",
   "     This question MUST target only the single next unresolved prerequisite identified above.",
   "     It must not assume facts that remain unverified.",
   "     It may mention concrete entities ONLY if they have already been [Verified].",
   "",
   "Remember:",
   "- Only ONE tool question per round.",
   "- Your next assistant message after this reflection MAY include that single tool call—but only if it is still needed.",
   "- If you are already able to answer, DO NOT call any tool again. Proceed to the Final Answer.",
   ""]

/-- prompts.py `FINAL_SYNTH_PROMPT` up to the `{USER_QUESTION}` placeholder. -/
def FINAL_SYNTH_PRE : String :=
  String.intercalate "\n"
  ["FINAL SYNTHESIS CONTEXT",
   "You are at the final step. You will NOT call tools anymore.",
   "You must answer based ONLY on:",
   "1) The original user question",
   "2) The evidence below (if stale or conflicting, mark as Uncertain and explain).",
   "",
   "User Question:",
   ""]

/-- `FINAL_SYNTH_PROMPT` between the two placeholders. -/
def FINAL_SYNTH_MID : String :=
  String.intercalate "\n"
  ["",
   "",
   "Evidence You Collected:",
   ""]

/-- `FINAL_SYNTH_PROMPT` after the `{EVIDENCE_TEXT}` placeholder. -/
def FINAL_SYNTH_POST : String :=
  String.intercalate "\n"
  ["",
   "",
   "Now produce your final answer following the Answer Contract:",
   "- Premise: <True | False | Uncertain + short justification>",
   "- Verdict: <Yes | No | Uncertain>",
   "- Direct Answer: <one-sentence answer to the main predicate>",
   "- Key Facts: <1–3 bullets with source + date/figure if available>",
   "- If Needed: <short qualifier or next step>",
   "",
   "Important:",
   "- Be explicit if the premise in the question is not verified.",
   "- If evidence is insufficient, output \x27Uncertain\x27 rather than guessing.",
   ""]

/-- `FINAL_SYNTH_PROMPT.format(USER_QUESTION=..., EVIDENCE_TEXT=...)`. -/
def finalSynthPrompt (userQuestion evidenceText : String) : String :=
  FINAL_SYNTH_PRE ++ userQuestion ++ FINAL_SYNTH_MID ++ evidenceText ++ FINAL_SYNTH_POST

/-!
## The agent loop (`freshagent/agent.py`)

`Agent.run` is modelled as a total function of:
* the config (`AgentConfig`),
* `parse`, an abstract total model of `json.loads` (`none` = the
  `except` branch of agent.py 310-313),
* `search`, the external search-and-format pipeline behind the google
  tool (question, provider) — its `.error` models a raised exception,
  which `_google_impl` catches,
* `oracle`, the LLM backend: from the request actually sent (messages,
  tools, max_tokens) to `out.get("message")`,
* `today`, the clock reading injected by `_today_context`, and the query.

The returned `RunResult` carries, besides the answer, the final
transcript and instrumentation logs: one `LlmCall` per backend call and
one `Invocation` per `tool.func(args)` call, each stamped with its round
number.  `result` is `.error` when an uncaught Python exception would
escape `run`.  `dbg`/`pretty_debug` only print and are not modelled;
`temperature` is carried in the config but only flows to the backend.
-/

structure ToolCall where
  id : String
  type : String
  name : String
  arguments : String
deriving DecidableEq

/-- A transcript entry (the message dicts of agent.py).  An assistant
turn's `tool_calls` list is empty exactly when `_assistant_message_to_dict`
omits the key. -/
inductive Message where
  | system (content : String)
  | user (content : String)
  | assistant (content : String) (tool_calls : List ToolCall)
  | tool (tool_call_id : String) (content : String)
deriving DecidableEq

/-- The backend's message object, as read by `_assistant_message_to_dict`:
`getattr(m, "content", ...)` may be `None`. -/
structure AssistantMsg where
  content : Option String
  tool_calls : List ToolCall

/-- `AgentConfig` (agent.py 198-204). -/
structure AgentConfig where
  model : String := "gpt-4o"
  provider : String := "serper"
  max_steps : Nat := 8
  temperature : Float := 0.0
  dbg : Bool := false

structure HpParams where
  n_org : Nat
  n_rel : Nat
  n_qa : Nat
  n_evd : Nat
  max_tokens : Nat
  max_tokens_final : Nat
  chat : Bool

/-- `_hp` (agent.py 208-228). -/
def hp (model : String) : HpParams :=
  if strStartsWith model "gpt-4" then
    { n_org := 15, n_rel := 3, n_qa := 3, n_evd := 15,
      max_tokens := 256, max_tokens_final := 512, chat := true }
  else
    { n_org := 15, n_rel := 2, n_qa := 2, n_evd := 5,
      max_tokens := 256, max_tokens_final := 512, chat := true }

/-- Instrumentation record of one `call_llm_messages` call. -/
structure LlmCall where
  step : Nat
  tools : Option (List JValue)
  maxTokens : Nat

/-- Instrumentation record of one `tool.func(args)` dispatch. -/
structure Invocation where
  step : Nat
  name : String
  args : JValue

structure AgentState where
  messages : List Message
  llmCalls : List LlmCall
  invocations : List Invocation

structure RunResult where
  result : Except String String
  messages : List Message
  llmCalls : List LlmCall
  invocations : List Invocation

inductive StepOut where
  | done (r : RunResult)
  | next (st : AgentState)

/-- The LLM backend: receives exactly what `call_llm_messages` is given
(messages, tools, max_tokens; model and temperature are constants of the
run) and yields `out.get("message")`. -/
def LlmOracle : Type :=
  List Message → Option (List JValue) → Nat → Option AssistantMsg

/-- `_assistant_message_to_dict` (agent.py 15-34): `content or ""`,
tool calls copied verbatim. -/
def assistantToMessage (m : AssistantMsg) : Message :=
  .assistant (m.content.getD "") m.tool_calls

def extractLatestReflectionAux : List Message → String
  | [] => ""
  | .assistant c _ :: _ => pyStrip c
  | _ :: rest => extractLatestReflectionAux rest

/-- `_extract_latest_reflection` (agent.py 37-42). -/
def extractLatestReflection (msgs : List Message) : String :=
  extractLatestReflectionAux msgs.reverse

/-- `_build_context_snapshot` (agent.py 45-58). -/
def buildContextSnapshot (userQuery reflectionText : String) : String :=
  let rt := pyStrip reflectionText
  if rt = "" then
    "SNAPSHOT: Focus on answering the user\x27s question.\nQuestion: " ++ userQuery
  else
    "SNAPSHOT: You must stay focused on the user\x27s question.\n" ++
    "Question: " ++ userQuery ++ "\n" ++
    "Recent reflection summary (for focus, not for quoting):\n" ++
    rt ++ "\n" ++
    "Use exactly ONE tool in the next step if needed; do not drift."

/-- `_final_context_from_prompt` (agent.py 61-74): gather the system turns
whose content contains `"EVIDENCE"`. -/
def finalContextFromPrompt (userQuery : String) (msgs : List Message) : String :=
  let evidences := msgs.filterMap (fun m => match m with
    | .system c => if containsSub c "EVIDENCE" then some c else none
    | _ => none)
  let evidenceText :=
    if evidences.isEmpty then "[no evidence gathered]"
    else String.intercalate "\n\n---\n\n" evidences
  finalSynthPrompt (pyStrip userQuery) evidenceText

/-- `build_react_messages` (agent.py 139-149) with `context=None`;
`today` is the `_today_context()` clock reading. -/
def buildReactMessages (userQuery today : String) : List Message :=
  [.system (renderReactPrompt today), .user userQuery]

/-- `_inject_evidence` (agent.py 152-192); nothing in it can raise in the
model, so the `except: pass` is invisible. -/
def injectEvidence (result : JValue) (sourceName : String) : List Message :=
  match result with
  | .obj kvs =>
    if jTruthy (jGet kvs "prompt" .null) then
      [.system ("EVIDENCE BLOCK (from " ++ sourceName ++ "):\n" ++
        (match jGet kvs "prompt" .null with
         | .str s => s
         | v => jsonDumps2 v) ++
        "\n\nInstructions: Base your next reasoning ONLY on the above evidence. " ++
        "If the evidence looks stale for a time-varying query, either search again or say Uncertain.")]
    else
      [.system ("EVIDENCE (raw, from " ++ sourceName ++ "):\n" ++ jsonDumps2 result ++
        "\n\nUse ONLY the above evidence to continue; if it is inadequate or stale, " ++
        "search again or mark the result as Uncertain.")]
  | v =>
    [.system ("EVIDENCE (raw, from " ++ sourceName ++ "):\n" ++ jsonDumps2 v ++
      "\n\nUse ONLY the above evidence to continue; if it is inadequate or stale, " ++
      "search again or mark the result as Uncertain.")]

/-- Python `key in v` (agent.py 316); raises on non-iterable values. -/
def pyContains (v : JValue) (key : String) : Except String Bool :=
  match v with
  | .obj kvs => .ok (jLookup kvs key).isSome
  | .arr xs => .ok (xs.any (fun x => jBeq x (.str key)))
  | .str s => .ok (containsSub s key)
  | _ => .error "TypeError: argument of type is not iterable"

def setKey : List (String × JValue) → String → JValue → List (String × JValue)
  | [], k, v => [(k, v)]
  | (k0, v0) :: rest, k, v =>
    if k0 = k then (k0, v) :: rest else (k0, v0) :: setKey rest k v

/-- Python `v[key] = val` (agent.py 317); raises on non-dict values. -/
def pySetItem (v : JValue) (key : String) (val : JValue) : Except String JValue :=
  match v with
  | .obj kvs => .ok (.obj (setKey kvs key val))
  | .arr _ => .error "TypeError: list indices must be integers or slices, not str"
  | _ => .error "TypeError: object does not support item assignment"

/-- agent.py 316-317: inject the default provider for google when absent.
`.error` models the uncaught `TypeError` raised when the parsed arguments
are valid JSON but not an object. -/
def resolveArgs (cfg : AgentConfig) (fnName : String) (args0 : JValue) :
    Except String JValue :=
  if fnName = "google" then
    match pyContains args0 "provider" with
    | .error e => .error e
    | .ok true => .ok args0
    | .ok false => pySetItem args0 "provider" (.str cfg.provider)
  else .ok args0

/-- `", ".join(sorted(TOOL_REGISTRY.keys()))` (agent.py 320). -/
def insertStr (x : String) : List String → List String
  | [] => [x]
  | y :: ys => if strLtB y x then y :: insertStr x ys else x :: y :: ys

def sortStrings : List String → List String
  | [] => []
  | x :: xs => insertStr x (sortStrings xs)

def availableListing (reg : List (String × Tool)) : String :=
  String.intercalate ", " (sortStrings (reg.map (·.1)))

/-- agent.py 305-346: the tool branch of one round, entered with the
first tool call `tc` of the assistant turn, after that turn was appended
(state `st`). -/
def toolBranch (cfg : AgentConfig) (parse : String → Option JValue)
    (search : JValue → JValue → Except String String)
    (step : Nat) (tc : ToolCall) (st : AgentState) : StepOut :=
  let reg := TOOL_REGISTRY search
  let fnName := pyStrip tc.name
  let argsStr := if tc.arguments = "" then "\x7b\x7d" else tc.arguments
  let args0 := (parse argsStr).getD (.obj [])
  match resolveArgs cfg fnName args0 with
  | .error e =>
    .done { result := .error e, messages := st.messages,
            llmCalls := st.llmCalls, invocations := st.invocations }
  | .ok args =>
    match regLookup reg fnName with
    | none =>
      .next { st with messages := st.messages ++
        [.system ("Requested tool \x27" ++ fnName ++ "\x27 is not available. Available: " ++
          availableListing reg ++ ".")] }
    | some tool =>
      match tool.func args with
      | .error e =>
        .done { result := .error e, messages := st.messages, llmCalls := st.llmCalls,
                invocations := st.invocations ++ [{ step := step, name := fnName, args := args }] }
      | .ok r0 =>
        let result := if jTruthy r0 then r0 else .obj []
        .next { messages := st.messages ++ [.tool tc.id (jsonDumps result)] ++
                  injectEvidence result fnName ++ [.system REFLECT_AFTER_TOOL],
                llmCalls := st.llmCalls,
                invocations := st.invocations ++ [{ step := step, name := fnName, args := args }] }

/-- agent.py 258-265: the focus snapshot prepended on later, non-final
rounds (`fuel` is `steps_left`). -/
def snapshotMsgs (query : String) (step fuel : Nat) (msgs : List Message) : List Message :=
  if 1 < step ∧ 1 < fuel then
    (if extractLatestReflection msgs = "" then msgs
     else msgs ++ [.system (buildContextSnapshot query (extractLatestReflection msgs))])
  else msgs

/-- The messages actually sent to the backend in a round: snapshot
(agent.py 258-265) then final-synthesis context (agent.py 267-273). -/
def preMsgs (query : String) (step fuel : Nat) (msgs0 : List Message) : List Message :=
  let m1 := snapshotMsgs query step fuel msgs0
  if fuel = 1 then m1 ++ [.system (finalContextFromPrompt query m1)] else m1

/-- agent.py 250 and 268: the tool specification passed to the backend;
withheld on the final round (`fuel = 1`). -/
def useTools (search : JValue → JValue → Except String String) (fuel : Nat) :
    Option (List JValue) :=
  if 1 < fuel then
    (if (TOOL_REGISTRY search).isEmpty then none
     else some (toolsToOpenaiFormat (TOOL_REGISTRY search)))
  else none

/-- agent.py 276: the per-round token budget. -/
def tokBudget (model : String) (fuel : Nat) : Nat :=
  if fuel = 1 then (hp model).max_tokens_final else (hp model).max_tokens

/-- agent.py 299-301: the early-exit test on the stripped content. -/
def earlyExit (content : String) : Bool :=
  containsSub content "Final Answer:" ||
    (containsSub content "Premise:" && containsSub content "Verdict:")

/-- One round of `Agent.run` (agent.py 255-349), at round number `step`
with `fuel = steps_left` remaining rounds. -/
def stepRound (cfg : AgentConfig) (parse : String → Option JValue)
    (search : JValue → JValue → Except String String) (oracle : LlmOracle)
    (query : String) (step fuel : Nat) (st : AgentState) : StepOut :=
  let msgs2 := preMsgs query step fuel st.messages
  let tools := useTools search fuel
  let tok := tokBudget cfg.model fuel
  let st1 : AgentState :=
    { messages := msgs2,
      llmCalls := st.llmCalls ++ [{ step := step, tools := tools, maxTokens := tok }],
      invocations := st.invocations }
  match oracle msgs2 tools tok with
  | none =>
    .done { result := .ok "[ERROR] LLM did not return a message.",
            messages := st1.messages, llmCalls := st1.llmCalls,
            invocations := st1.invocations }
  | some m =>
    let st2 : AgentState := { st1 with messages := st1.messages ++ [assistantToMessage m] }
    if earlyExit (pyStrip (m.content.getD "")) then
      .done { result := .ok (pyStrip (m.content.getD "")), messages := st2.messages,
              llmCalls := st2.llmCalls, invocations := st2.invocations }
    else
      match m.tool_calls with
      | [] => .next st2
      | tc :: _ =>
        if 1 < fuel then toolBranch cfg parse search step tc st2 else .next st2

/-- agent.py 351-354: the fallback when the loop exhausts. -/
def exhaustResult (st : AgentState) : RunResult :=
  { result := .ok (match st.messages.getLast? with
      | some (.assistant c _) => c
      | _ => "[Stopped: max steps reached]"),
    messages := st.messages, llmCalls := st.llmCalls, invocations := st.invocations }

/-- The round loop of `Agent.run`: iterate `stepRound` with `fuel`
rounds remaining, current round number `step`. -/
def runSteps (cfg : AgentConfig) (parse : String → Option JValue)
    (search : JValue → JValue → Except String String) (oracle : LlmOracle)
    (query : String) : Nat → Nat → AgentState → RunResult
  | 0, _, st => exhaustResult st
  | fuel + 1, step, st =>
    match stepRound cfg parse search oracle query step (fuel + 1) st with
    | .done r => r
    | .next st' => runSteps cfg parse search oracle query fuel (step + 1) st'

/-- `Agent.run` (agent.py 240-354). -/
def runAgent (cfg : AgentConfig) (parse : String → Option JValue)
    (search : JValue → JValue → Except String String) (oracle : LlmOracle)
    (today query : String) : RunResult :=
  runSteps cfg parse search oracle query cfg.max_steps 1
    { messages := buildReactMessages query today, llmCalls := [], invocations := [] }

/-!
## `extract_direct_answer` (agent.py 77-124)

The three patterns are Python regexes with `(?im)`: multiline,
case-insensitive.  On their alphabet the greedy classes are disjoint from
the literals that follow them, so matching at a given line start is
deterministic; `re.search` tries candidate starts left to right (string
start and each position after a newline).  `\s` may cross newlines, which
the model preserves.
-/

/-- The `[\s\-•>*]*` leading class. -/
def leadClass (c : Char) : Bool :=
  isPySpace c || c = '-' || c = '•' || c = '>' || c = '*'

/-- The `[:\-–]` separator class. -/
def sepClass (c : Char) : Bool :=
  c = ':' || c = '-' || c = '–'

/-- Case-insensitive literal match, returning the remaining suffix. -/
def stripPrefixCI : List Char → List Char → Option (List Char)
  | [], s => some s
  | _ :: _, [] => none
  | p :: ps, c :: cs => if c.toLower = p then stripPrefixCI ps cs else none

/-- Attempt `[\s\-•>*]*Direct\s*Answer\s*[:\-–]\s*(.*)$` at a candidate
start; returns (captured group, suffix after the match end). -/
def tryDirectAt (s : List Char) : Option (List Char × List Char) :=
  match stripPrefixCI "direct".toList (s.dropWhile leadClass) with
  | none => none
  | some s2 =>
    match stripPrefixCI "answer".toList (s2.dropWhile isPySpace) with
    | none => none
    | some s4 =>
      match s4.dropWhile isPySpace with
      | [] => none
      | c :: s6 =>
        if sepClass c then
          some ((s6.dropWhile isPySpace).takeWhile (· ≠ '\n'),
                (s6.dropWhile isPySpace).dropWhile (· ≠ '\n'))
        else none

/-- Attempt `[\s\-•>*]*Final\s*Answer\s*[:\-–]?(.*)$` at a candidate
start; returns the suffix after the match end. -/
def tryFinalAt (s : List Char) : Option (List Char) :=
  match stripPrefixCI "final".toList (s.dropWhile leadClass) with
  | none => none
  | some s2 =>
    match stripPrefixCI "answer".toList (s2.dropWhile isPySpace) with
    | none => none
    | some s4 =>
      match s4.dropWhile isPySpace with
      | [] => some []
      | c :: s6 =>
        if sepClass c then some (s6.dropWhile (· ≠ '\n'))
        else some ((c :: s6).dropWhile (· ≠ '\n'))

/-- Attempt `[\s\-•>*]*Verdict\s*[:\-–]\s*(.+)$` at a candidate start;
returns the captured group (necessarily non-empty). -/
def tryVerdictAt (s : List Char) : Option (List Char) :=
  match stripPrefixCI "verdict".toList (s.dropWhile leadClass) with
  | none => none
  | some s2 =>
    match s2.dropWhile isPySpace with
    | [] => none
    | c :: s6 =>
      if sepClass c then
        match s6.dropWhile isPySpace with
        | [] => none
        | d :: s8 => some ((d :: s8).takeWhile (· ≠ '\n'))
      else none

/-- `re.search` with a multiline `^` anchor: try the pattern at the string
start and after each newline, leftmost candidate first. -/
def reSearchAux {α : Type} (f : List Char → Option α) : List Char → Bool → Option α
  | [], tryHere => if tryHere then f [] else none
  | c :: rest, tryHere =>
    match (if tryHere then f (c :: rest) else none) with
    | some r => some r
    | none => reSearchAux f rest (c = '\n')

def reSearch {α : Type} (f : List Char → Option α) (s : List Char) : Option α :=
  reSearchAux f s true

/-- The `for line in ...: ls = line.strip(); if ls: return ls` loops. -/
def firstNonEmptyLine : List String → Option String
  | [] => none
  | l :: rest => if pyStrip l ≠ "" then some (pyStrip l) else firstNonEmptyLine rest

/-- agent.py 114-124: the shared tail of the extractor (Verdict, first
non-empty line, full text). -/
def verdictFallback (t : String) : String :=
  match reSearch tryVerdictAt t.toList with
  | some cap => pyStrip (String.mk cap)
  | none =>
    match firstNonEmptyLine (pyLines t) with
    | some l => l
    | none => t

/-- `extract_direct_answer` (agent.py 77-124). -/
def extract_direct_answer (finalText : String) : String :=
  if pyStrip finalText = "" then ""
  else
    match reSearch tryDirectAt (pyStrip finalText).toList with
    | some (cap, rest) =>
      if pyStrip (String.mk cap) ≠ "" then pyStrip (String.mk cap)
      else (firstNonEmptyLine (pyLines (String.mk rest))).getD ""
    | none =>
      match reSearch tryFinalAt (pyStrip finalText).toList with
      | some rest =>
        match firstNonEmptyLine (pyLines (pyStrip (String.mk rest))) with
        | some l => l
        | none => verdictFallback (pyStrip finalText)
      | none => verdictFallback (pyStrip finalText)

/-!
The specification describes the extractor as a prioritized list of
strategies, each `text → option string`, first success winning.  The
following four definitions spell the strategies out (strategy 5, the full
trimmed text, is the default of the chain).
-/

/-- Spec strategy 1: a `Direct Answer:` line's value, or the next
non-empty line when the value is empty (possibly the empty string). -/
def stratDirectAnswer (finalText : String) : Option String :=
  match reSearch tryDirectAt (pyStrip finalText).toList with
  | some (cap, rest) =>
    some (if pyStrip (String.mk cap) ≠ "" then pyStrip (String.mk cap)
          else (firstNonEmptyLine (pyLines (String.mk rest))).getD "")
  | none => none

/-- Spec strategy 2: the first non-empty line after a `Final Answer`
header (fails when no such line follows). -/
def stratFinalAnswer (finalText : String) : Option String :=
  match reSearch tryFinalAt (pyStrip finalText).toList with
  | some rest => firstNonEmptyLine (pyLines (pyStrip (String.mk rest)))
  | none => none

/-- Spec strategy 3: a `Verdict:` line's value. -/
def stratVerdict (finalText : String) : Option String :=
  (reSearch tryVerdictAt (pyStrip finalText).toList).map (fun cap => pyStrip (String.mk cap))

/-- Spec strategy 4: the first non-empty line. -/
def stratFirstLine (finalText : String) : Option String :=
  firstNonEmptyLine (pyLines (pyStrip finalText))

/-- The spec's prioritized chain; strategy 5 is the default. -/
def specStrategyChain (finalText : String) : String :=
  match stratDirectAnswer finalText with
  | some v => v
  | none =>
    match stratFinalAnswer finalText with
    | some v => v
    | none =>
      match stratVerdict finalText with
      | some v => v
      | none =>
        match stratFirstLine finalText with
        | some v => v
        | none => pyStrip finalText

/-!
## FreshPrompt evidence assembly (`core/search_result_formatters.py`)

The claims concern `freshprompt_format` (lines 261-345): category
assembly, the global date sort, truncation and rendering.  Its inputs here
are the *normalized* rows that `format_search_results`,
`format_questions_and_answers` and `format_knowledge_graph` produce
(each a record of five optional strings); on the empty dict each of those
normalizers yields the all-`None` row, which models the padding branches.
`format_date` (line 322) is idempotent on its own image, so its
reapplication to already-normalized rows is the identity here;
`pd.to_datetime(..., errors="coerce")` on a `%b %d, %Y` string is the
date key, and `NaT` (unparsable or missing) is `none`.  `sort_values`
(ascending, `na_position="first"`) is modelled by a stable insertion
sort on the date key; the source's quicksort leaves the relative order
of equal keys unspecified, and no theorem below depends on tie order.
-/

structure EvRow where
  source : Option String
  date : Option String
  title : Option String
  snippet : Option String
  highlight : Option String
deriving DecidableEq

/-- The row produced by each normalizer on an empty/missing entry. -/
def blankRow : EvRow :=
  { source := none, date := none, title := none, snippet := none, highlight := none }

def monthNum (m : String) : Option Nat :=
  if m = "Jan" then some 1 else if m = "Feb" then some 2
  else if m = "Mar" then some 3 else if m = "Apr" then some 4
  else if m = "May" then some 5 else if m = "Jun" then some 6
  else if m = "Jul" then some 7 else if m = "Aug" then some 8
  else if m = "Sep" then some 9 else if m = "Oct" then some 10
  else if m = "Nov" then some 11 else if m = "Dec" then some 12
  else none

/-- `pd.to_datetime(date, errors="coerce")` on the `%b %d, %Y` strings
`format_date` emits, as a comparable key; `none` is `NaT`.  Day/month
range checks are not repeated here because `format_date` only emits
`strftime` output of real dates. -/
def parseDateKey : Option String → Option Nat
  | none => none
  | some s =>
    match s.toList with
    | m1 :: m2 :: m3 :: ' ' :: rest =>
      (match monthNum (String.mk [m1, m2, m3]), rest.takeWhile Char.isDigit,
             rest.dropWhile Char.isDigit with
       | some m, d1 :: ds, ',' :: ' ' :: yrest =>
         if yrest ≠ [] ∧ yrest.all Char.isDigit then
           some (digitsToNat yrest * 10000 + m * 100 + digitsToNat (d1 :: ds))
         else none
       | _, _, _ => none)
    | _ => none

def rowKey (r : EvRow) : Option Nat :=
  parseDateKey r.date

/-- Date-key order: `NaT` first (`na_position="first"`), dates ascending. -/
def keyLeB : Option Nat → Option Nat → Bool
  | none, _ => true
  | some _, none => false
  | some a, some b => a ≤ b

def rowLe (a b : EvRow) : Prop :=
  keyLeB (rowKey a) (rowKey b) = true

instance : DecidableRel rowLe := fun a b =>
  inferInstanceAs (Decidable (keyLeB (rowKey a) (rowKey b) = true))

theorem keyLeB_total (x y : Option Nat) : keyLeB x y = true ∨ keyLeB y x = true := by
  cases x <;> cases y <;> simp [keyLeB]
  omega

theorem keyLeB_trans {x y z : Option Nat} (h1 : keyLeB x y = true)
    (h2 : keyLeB y z = true) : keyLeB x z = true := by
  cases x <;> cases y <;> cases z <;> simp_all [keyLeB]
  omega

instance : IsTotal EvRow rowLe :=
  ⟨fun a b => keyLeB_total (rowKey a) (rowKey b)⟩

instance : IsTrans EvRow rowLe :=
  ⟨fun _ _ _ h1 h2 => keyLeB_trans h1 h2⟩

/-- `dropna(how="all")`: a row survives when any field is non-null (the
derived datetime column is non-null only when `date` is). -/
def nonBlank (r : EvRow) : Bool :=
  r.source.isSome || r.date.isSome || r.title.isSome ||
    r.snippet.isSome || r.highlight.isSome

/-- The `[... if len > k else format_*({}) for k in range(n)]` padding. -/
def padTo (n : Nat) (rows : List EvRow) : List EvRow :=
  (List.range n).map (fun k => rows.getD k blankRow)

/-- The dataframe rows in order: `_append` iterates each category reversed
(`rows[::-1]`, lines 274-320), categories in source order. -/
def dfRows (organic related qa : List EvRow) (kg ab : EvRow)
    (nOrg nRel nQa : Nat) : List EvRow :=
  (padTo nOrg organic).reverse ++ (padTo nRel related).reverse ++
    (padTo nQa qa).reverse ++ [kg] ++ [ab]

/-- Lines 324-328: sort by date key (undated first), drop all-null rows. -/
def keptRows (organic related qa : List EvRow) (kg ab : EvRow)
    (nOrg nRel nQa : Nat) : List EvRow :=
  (List.insertionSort rowLe (dfRows organic related qa kg ab nOrg nRel nQa)).filter nonBlank

/-- Lines 331-332: `df.tail(num_retrieved_evidences)`. -/
def evidenceRows (organic related qa : List EvRow) (kg ab : EvRow)
    (nOrg nRel nQa nEvid : Nat) : List EvRow :=
  let kept := keptRows organic related qa kg ab nOrg nRel nQa
  kept.drop (kept.length - nEvid)

def optPy : Option String → String
  | none => "None"
  | some s => s

/-- Lines 333-340: one rendered evidence entry. -/
def renderRow (r : EvRow) : String :=
  "\n\n" ++ "source: " ++ optPy r.source ++ "\n" ++
  "date: " ++ optPy r.date ++ "\n" ++
  "title: " ++ optPy r.title ++ "\n" ++
  "snippet: " ++ optPy r.snippet ++ "\n" ++
  "highlight: " ++ optPy r.highlight

/-- `freshprompt_format` (lines 261-345) over normalized rows. -/
def freshprompt_format (question reasoningAndAnswer : String)
    (organic related qa : List EvRow) (kg ab : EvRow)
    (nOrg nRel nQa nEvid : Nat) : String :=
  "\n\n\nquery: " ++ question ++
    String.join ((evidenceRows organic related qa kg ab nOrg nRel nQa nEvid).map renderRow) ++
    "\n\nquestion: " ++ question ++ reasoningAndAnswer

/-!
## Characterization lemmas about one round and the loop
-/

def outLlm : StepOut → List LlmCall
  | .done r => r.llmCalls
  | .next st => st.llmCalls

def outInv : StepOut → List Invocation
  | .done r => r.invocations
  | .next st => st.invocations

def outMsgs : StepOut → List Message
  | .done r => r.messages
  | .next st => st.messages

/-- Every round makes exactly one backend call, logged with the round's
tool offer and token budget. -/
theorem outLlm_stepRound (cfg : AgentConfig) (parse : String → Option JValue)
    (search : JValue → JValue → Except String String) (oracle : LlmOracle)
    (query : String) (step fuel : Nat) (st : AgentState) :
    outLlm (stepRound cfg parse search oracle query step fuel st) =
      st.llmCalls ++ [{ step := step, tools := useTools search fuel,
                        maxTokens := tokBudget cfg.model fuel }] := by
  simp only [stepRound]
  cases h : oracle (preMsgs query step fuel st.messages) (useTools search fuel)
      (tokBudget cfg.model fuel) with
  | none => simp only [outLlm]
  | some m =>
    cases he : earlyExit (pyStrip (m.content.getD "")) with
    | true => simp only [he, if_true, outLlm]
    | false =>
      simp only [he, Bool.false_eq_true, if_false]
      cases htc : m.tool_calls with
      | nil => simp only [outLlm]
      | cons tc rest =>
        by_cases hf : 1 < fuel
        · simp only [hf, if_true, toolBranch]
          cases hr : resolveArgs cfg (pyStrip tc.name)
              ((parse (if tc.arguments = "" then "\x7b\x7d" else tc.arguments)).getD (.obj [])) with
          | error e => simp only [outLlm]
          | ok args =>
            cases hl : regLookup (TOOL_REGISTRY search) (pyStrip tc.name) with
            | none => simp only [outLlm]
            | some tool =>
              cases hfn : tool.func args with
              | error e => simp only [hfn, outLlm]
              | ok r0 => simp only [hfn, outLlm]
        · simp only [hf, if_false, outLlm]

/-- A round dispatches either no tool or exactly one, derived from the
*first* tool request of the backend's assistant message, and only when
more than one round remains. -/
theorem outInv_stepRound (cfg : AgentConfig) (parse : String → Option JValue)
    (search : JValue → JValue → Except String String) (oracle : LlmOracle)
    (query : String) (step fuel : Nat) (st : AgentState) :
    outInv (stepRound cfg parse search oracle query step fuel st) = st.invocations ∨
    (1 < fuel ∧ ∃ m tc rest args,
      oracle (preMsgs query step fuel st.messages) (useTools search fuel)
          (tokBudget cfg.model fuel) = some m ∧
      m.tool_calls = tc :: rest ∧
      outInv (stepRound cfg parse search oracle query step fuel st) =
        st.invocations ++ [{ step := step, name := pyStrip tc.name, args := args }]) := by
  simp only [stepRound]
  cases h : oracle (preMsgs query step fuel st.messages) (useTools search fuel)
      (tokBudget cfg.model fuel) with
  | none => exact Or.inl rfl
  | some m =>
    cases he : earlyExit (pyStrip (m.content.getD "")) with
    | true => simp only [he, if_true, outInv]; exact Or.inl trivial
    | false =>
      simp only [he, Bool.false_eq_true, if_false]
      cases htc : m.tool_calls with
      | nil => exact Or.inl rfl
      | cons tc rest =>
        by_cases hf : 1 < fuel
        · simp only [hf, if_true, toolBranch]
          cases hr : resolveArgs cfg (pyStrip tc.name)
              ((parse (if tc.arguments = "" then "\x7b\x7d" else tc.arguments)).getD (.obj [])) with
          | error e => exact Or.inl rfl
          | ok args =>
            cases hl : regLookup (TOOL_REGISTRY search) (pyStrip tc.name) with
            | none => exact Or.inl rfl
            | some tool =>
              cases hfn : tool.func args with
              | error e =>
                refine Or.inr ⟨trivial, m, tc, rest, args, rfl, htc, ?_⟩
                simp only [hfn, outInv]
              | ok r0 =>
                refine Or.inr ⟨trivial, m, tc, rest, args, rfl, htc, ?_⟩
                simp only [hfn, outInv]
        · simp only [hf, if_false]; exact Or.inl rfl

/-- The assistant turn is appended verbatim (content and the backend's
full tool-request list), before anything else the round adds. -/
theorem outMsgs_stepRound (cfg : AgentConfig) (parse : String → Option JValue)
    (search : JValue → JValue → Except String String) (oracle : LlmOracle)
    (query : String) (step fuel : Nat) (st : AgentState) (m : AssistantMsg)
    (h : oracle (preMsgs query step fuel st.messages) (useTools search fuel)
        (tokBudget cfg.model fuel) = some m) :
    ∃ extra, outMsgs (stepRound cfg parse search oracle query step fuel st) =
      (preMsgs query step fuel st.messages ++ [assistantToMessage m]) ++ extra := by
  simp only [stepRound, h]
  cases he : earlyExit (pyStrip (m.content.getD "")) with
  | true =>
    exact ⟨[], by simp only [he, if_true, outMsgs, List.append_nil]⟩
  | false =>
    simp only [he, Bool.false_eq_true, if_false]
    cases htc : m.tool_calls with
    | nil => exact ⟨[], by simp only [outMsgs, List.append_nil]⟩
    | cons tc rest =>
      by_cases hf : 1 < fuel
      · simp only [hf, if_true, toolBranch]
        cases hr : resolveArgs cfg (pyStrip tc.name)
            ((parse (if tc.arguments = "" then "\x7b\x7d" else tc.arguments)).getD (.obj [])) with
        | error e => exact ⟨[], by simp only [outMsgs, List.append_nil]⟩
        | ok args =>
          cases hl : regLookup (TOOL_REGISTRY search) (pyStrip tc.name) with
          | none =>
            refine ⟨[.system ("Requested tool \x27" ++ pyStrip tc.name ++
              "\x27 is not available. Available: " ++
              availableListing (TOOL_REGISTRY search) ++ ".")], ?_⟩
            simp only [outMsgs]
          | some tool =>
            cases hfn : tool.func args with
            | error e => exact ⟨[], by simp only [hfn, outMsgs, List.append_nil]⟩
            | ok r0 =>
              refine ⟨[Message.tool tc.id (jsonDumps (if jTruthy r0 then r0 else .obj []))] ++
                injectEvidence (if jTruthy r0 then r0 else .obj []) (pyStrip tc.name) ++
                [.system REFLECT_AFTER_TOOL], ?_⟩
              simp only [hfn, outMsgs, List.append_assoc]
      · simp only [hf, if_false]
        exact ⟨[], by simp only [outMsgs, List.append_nil]⟩

def exceptIsOk {ε α : Type} : Except ε α → Bool
  | .ok _ => true
  | .error _ => false

/-- Provider injection cannot raise on an object argument, and keeps it
an object. -/
theorem resolveArgs_obj (cfg : AgentConfig) (nm : String) (kvs : List (String × JValue)) :
    ∃ kvs', resolveArgs cfg nm (.obj kvs) = .ok (.obj kvs') := by
  unfold resolveArgs pyContains
  by_cases h : nm = "google"
  · simp only [h, if_true]
    cases hl : (jLookup kvs "provider").isSome with
    | true => exact ⟨kvs, rfl⟩
    | false => exact ⟨setKey kvs "provider" (.str cfg.provider), rfl⟩
  · simp only [h, if_false]
    exact ⟨kvs, rfl⟩

/-- Both registered tools return (never raise) on object arguments. -/
theorem regFunc_obj_ok (search : JValue → JValue → Except String String)
    (nm : String) (tool : Tool) (kvs : List (String × JValue))
    (h : regLookup (TOOL_REGISTRY search) nm = some tool) :
    ∃ v, tool.func (.obj kvs) = .ok v := by
  simp only [TOOL_REGISTRY, regLookup] at h
  by_cases h1 : "google" = nm
  · simp only [h1, if_true] at h
    cases h
    simp only [googleTool, googleFunc]
    cases hs : search (jGet kvs "question" (.str "")) (jGet kvs "provider" (.str "serper")) with
    | ok p =>
      exact ⟨.obj [("ok", .bool true), ("question", jGet kvs "question" (.str "")),
        ("prompt", .str p)], by simp only [hs]⟩
    | error e =>
      exact ⟨.obj [("ok", .bool false), ("error", .str e)], by simp only [hs]⟩
  · simp only [h1, if_false] at h
    by_cases h2 : "calculator" = nm
    · simp only [h2, if_true] at h
      cases h
      exact ⟨calcImpl kvs, rfl⟩
    · simp only [h2, if_false] at h
      cases h

/-- When every arguments string parses to a JSON object or fails to
parse, a round can only end the run with a string result. -/
theorem stepRound_noCrash (cfg : AgentConfig) (parse : String → Option JValue)
    (search : JValue → JValue → Except String String) (oracle : LlmOracle)
    (query : String)
    (HP : ∀ s, parse s = none ∨ ∃ kvs, parse s = some (.obj kvs))
    (step fuel : Nat) (st : AgentState) (r : RunResult)
    (hdone : stepRound cfg parse search oracle query step fuel st = .done r) :
    exceptIsOk r.result = true := by
  simp only [stepRound] at hdone
  cases h : oracle (preMsgs query step fuel st.messages) (useTools search fuel)
      (tokBudget cfg.model fuel) with
  | none => rw [h] at hdone; cases hdone; rfl
  | some m =>
    rw [h] at hdone
    cases he : earlyExit (pyStrip (m.content.getD "")) with
    | true => simp only [he, if_true] at hdone; cases hdone; rfl
    | false =>
      simp only [he, Bool.false_eq_true, if_false] at hdone
      cases htc : m.tool_calls with
      | nil => rw [htc] at hdone; cases hdone
      | cons tc rest =>
        rw [htc] at hdone
        by_cases hf : 1 < fuel
        · simp only [hf, if_true, toolBranch] at hdone
          have hobj : ∃ kvs, ((parse (if tc.arguments = "" then "\x7b\x7d" else tc.arguments)).getD
              (JValue.obj [])) = .obj kvs := by
            rcases HP (if tc.arguments = "" then "\x7b\x7d" else tc.arguments) with hp | ⟨kvs, hp⟩
            · exact ⟨[], by rw [hp]; rfl⟩
            · exact ⟨kvs, by rw [hp]; rfl⟩
          rcases hobj with ⟨kvs, hobj⟩
          rcases resolveArgs_obj cfg (pyStrip tc.name) kvs with ⟨kvs', hres⟩
          cases hl : regLookup (TOOL_REGISTRY search) (pyStrip tc.name) with
          | none => simp only [hobj, hres, hl] at hdone; cases hdone
          | some tool =>
            rcases regFunc_obj_ok search (pyStrip tc.name) tool kvs' hl with ⟨v, hfn⟩
            simp only [hobj, hres, hl, hfn] at hdone
            cases hdone
        · simp only [hf, if_false] at hdone
          cases hdone

/-- The loop never crashes when every arguments string parses to a JSON
object or fails to parse. -/
theorem runSteps_noCrash (cfg : AgentConfig) (parse : String → Option JValue)
    (search : JValue → JValue → Except String String) (oracle : LlmOracle)
    (query : String)
    (HP : ∀ s, parse s = none ∨ ∃ kvs, parse s = some (.obj kvs)) :
    ∀ fuel step st,
      exceptIsOk (runSteps cfg parse search oracle query fuel step st).result = true := by
  intro fuel
  induction fuel with
  | zero => intro step st; rfl
  | succ f ih =>
    intro step st
    rw [runSteps]
    cases hstep : stepRound cfg parse search oracle query step (f + 1) st with
    | done r => exact stepRound_noCrash cfg parse search oracle query HP step (f + 1) st r hstep
    | next st' => exact ih (step + 1) st'

/-- At most one backend call per remaining round. -/
theorem runSteps_llm_len (cfg : AgentConfig) (parse : String → Option JValue)
    (search : JValue → JValue → Except String String) (oracle : LlmOracle)
    (query : String) :
    ∀ fuel step st,
      (runSteps cfg parse search oracle query fuel step st).llmCalls.length ≤
        st.llmCalls.length + fuel := by
  intro fuel
  induction fuel with
  | zero => intro step st; simp [runSteps, exhaustResult]
  | succ f ih =>
    intro step st
    rw [runSteps]
    cases hstep : stepRound cfg parse search oracle query step (f + 1) st with
    | done r =>
      have hl := outLlm_stepRound cfg parse search oracle query step (f + 1) st
      rw [hstep] at hl
      simp only [outLlm] at hl
      simp [hl]
    | next st' =>
      have hl := outLlm_stepRound cfg parse search oracle query step (f + 1) st
      rw [hstep] at hl
      simp only [outLlm] at hl
      have := ih (step + 1) st'
      rw [hl] at this
      simp at this ⊢
      omega

/-- At most one tool invocation per remaining round except the last. -/
theorem runSteps_inv_len (cfg : AgentConfig) (parse : String → Option JValue)
    (search : JValue → JValue → Except String String) (oracle : LlmOracle)
    (query : String) :
    ∀ fuel step st,
      (runSteps cfg parse search oracle query fuel step st).invocations.length ≤
        st.invocations.length + (fuel - 1) := by
  intro fuel
  induction fuel with
  | zero => intro step st; simp [runSteps, exhaustResult]
  | succ f ih =>
    intro step st
    rw [runSteps]
    cases hstep : stepRound cfg parse search oracle query step (f + 1) st with
    | done r =>
      have hi := outInv_stepRound cfg parse search oracle query step (f + 1) st
      rw [hstep] at hi
      simp only [outInv] at hi
      rcases hi with hi | ⟨hf, _, _, _, _, _, _, hi⟩
      · simp [hi]
      · rw [hi]
        simp
        omega
    | next st' =>
      have hi := outInv_stepRound cfg parse search oracle query step (f + 1) st
      rw [hstep] at hi
      simp only [outInv] at hi
      have hrec := ih (step + 1) st'
      show (runSteps cfg parse search oracle query f (step + 1) st').invocations.length ≤
        st.invocations.length + (f + 1 - 1)
      rcases hi with hi | ⟨hf, _, _, _, _, _, _, hi⟩
      · rw [hi] at hrec
        omega
      · rw [hi] at hrec
        simp at hrec
        omega

/-- Round numbers of invocations strictly increase along the log, stay in
range, and never reach the final round. -/
theorem runSteps_inv_steps (cfg : AgentConfig) (parse : String → Option JValue)
    (search : JValue → JValue → Except String String) (oracle : LlmOracle)
    (query : String) :
    ∀ fuel step st,
      (∀ i ∈ st.invocations, 1 ≤ i.step ∧ i.step < step) →
      List.Pairwise (fun a b : Invocation => a.step < b.step) st.invocations →
      1 ≤ step →
      List.Pairwise (fun a b : Invocation => a.step < b.step)
        (runSteps cfg parse search oracle query fuel step st).invocations ∧
      ∀ i ∈ (runSteps cfg parse search oracle query fuel step st).invocations,
        (1 ≤ i.step ∧ i.step + 2 ≤ step + fuel) ∨ i ∈ st.invocations := by
  intro fuel
  induction fuel with
  | zero =>
    intro step st hmem hpw hstep1
    exact ⟨hpw, fun i hi => Or.inr hi⟩
  | succ f ih =>
    intro step st hmem hpw hstep1
    rw [runSteps]
    have hi := outInv_stepRound cfg parse search oracle query step (f + 1) st
    cases hstep : stepRound cfg parse search oracle query step (f + 1) st with
    | done r =>
      rw [hstep] at hi
      simp only [outInv] at hi
      rcases hi with hi | ⟨hf, _, _, _, _, _, _, hi⟩
      · exact ⟨hi ▸ hpw, fun i him => Or.inr (hi ▸ him)⟩
      · constructor
        · rw [hi]
          refine List.pairwise_append.mpr ⟨hpw, List.pairwise_singleton _ _, ?_⟩
          intro a ha b hb
          rw [List.mem_singleton] at hb
          subst hb
          exact (hmem a ha).2
        · intro i him
          rw [hi] at him
          rcases List.mem_append.mp him with hold | hnew
          · exact Or.inr hold
          · rw [List.mem_singleton] at hnew
            subst hnew
            exact Or.inl ⟨hstep1, by show step + 2 ≤ step + (f + 1); omega⟩
    | next st' =>
      rw [hstep] at hi
      simp only [outInv] at hi
      show List.Pairwise _ (runSteps cfg parse search oracle query f (step + 1) st').invocations ∧
        ∀ i ∈ (runSteps cfg parse search oracle query f (step + 1) st').invocations,
          (1 ≤ i.step ∧ i.step + 2 ≤ step + (f + 1)) ∨ i ∈ st.invocations
      rcases hi with hi | ⟨hf, _, _, _, _, _, _, hi⟩
      · have hrec := ih (step + 1) st'
          (by rw [hi]; intro i hh; exact ⟨(hmem i hh).1, by have := (hmem i hh).2; omega⟩)
          (by rw [hi]; exact hpw) (by omega)
        refine ⟨hrec.1, fun i him => ?_⟩
        rcases hrec.2 i him with hnew | hold
        · exact Or.inl ⟨hnew.1, by omega⟩
        · exact Or.inr (hi ▸ hold)
      · have hmem' : ∀ i ∈ st'.invocations, 1 ≤ i.step ∧ i.step < step + 1 := by
          rw [hi]
          intro i hh
          rcases List.mem_append.mp hh with hold | hns
          · exact ⟨(hmem i hold).1, by have := (hmem i hold).2; omega⟩
          · rw [List.mem_singleton] at hns
            subst hns
            exact ⟨hstep1, by show step < step + 1; omega⟩
        have hpw' : List.Pairwise (fun a b : Invocation => a.step < b.step) st'.invocations := by
          rw [hi]
          refine List.pairwise_append.mpr ⟨hpw, List.pairwise_singleton _ _, ?_⟩
          intro a ha b hb
          rw [List.mem_singleton] at hb
          subst hb
          exact (hmem a ha).2
        have hrec := ih (step + 1) st' hmem' hpw' (by omega)
        refine ⟨hrec.1, fun i him => ?_⟩
        rcases hrec.2 i him with hnew | hold
        · exact Or.inl ⟨hnew.1, by omega⟩
        · rw [hi] at hold
          rcases List.mem_append.mp hold with holder | hns
          · exact Or.inr holder
          · rw [List.mem_singleton] at hns
            subst hns
            exact Or.inl ⟨hstep1, by show step + 2 ≤ step + (f + 1); omega⟩

/-- Every logged backend call carries the tool offer of its round:
the registry's OpenAI spec on non-final rounds, nothing on the final. -/
theorem runSteps_llm_tools (cfg : AgentConfig) (parse : String → Option JValue)
    (search : JValue → JValue → Except String String) (oracle : LlmOracle)
    (query : String) :
    ∀ fuel step st, ∀ c ∈ (runSteps cfg parse search oracle query fuel step st).llmCalls,
      c ∈ st.llmCalls ∨
      (step ≤ c.step ∧ c.step < step + fuel ∧
        c.tools = useTools search (step + fuel - c.step)) := by
  intro fuel
  induction fuel with
  | zero => intro step st c hc; exact Or.inl hc
  | succ f ih =>
    intro step st c hc
    rw [runSteps] at hc
    have hl := outLlm_stepRound cfg parse search oracle query step (f + 1) st
    cases hstep : stepRound cfg parse search oracle query step (f + 1) st with
    | done r =>
      rw [hstep] at hl hc
      simp only [outLlm] at hl
      simp only at hc
      rw [hl] at hc
      rcases List.mem_append.mp hc with hold | hnew
      · exact Or.inl hold
      · rw [List.mem_singleton] at hnew
        subst hnew
        refine Or.inr ⟨le_refl _, by show step < step + (f + 1); omega, ?_⟩
        have harg : step + (f + 1) - step = f + 1 := by omega
        show useTools search (f + 1) = useTools search (step + (f + 1) - step)
        rw [harg]
    | next st' =>
      rw [hstep] at hl hc
      simp only [outLlm] at hl
      simp only at hc
      rcases ih (step + 1) st' c hc with hold | ⟨h1, h2, h3⟩
      · rw [hl] at hold
        rcases List.mem_append.mp hold with holder | hnew
        · exact Or.inl holder
        · rw [List.mem_singleton] at hnew
          subst hnew
          refine Or.inr ⟨le_refl _, by show step < step + (f + 1); omega, ?_⟩
          have harg : step + (f + 1) - step = f + 1 := by omega
          show useTools search (f + 1) = useTools search (step + (f + 1) - step)
          rw [harg]
      · refine Or.inr ⟨by omega, by omega, ?_⟩
        have harg : step + 1 + f - c.step = step + (f + 1) - c.step := by omega
        rw [← harg]
        exact h3

/-!
## Concrete fixtures for counterexamples and witnesses

`demoParse` agrees with Python's `json.loads` on every arguments string
the concrete executions below actually parse: `"{}"` is the empty object
and `"[1]"` is the one-element list.
-/

def demoParse : String → Option JValue
  | "\x7b\x7d" => some (.obj [])
  | "[1]" => some (.arr [.num 1])
  | _ => none

/-- A search pipeline stand-in (never consulted by the runs below). -/
def demoSearch : JValue → JValue → Except String String :=
  fun _ _ => .ok "mock evidence"

def cfg2 : AgentConfig :=
  { model := "gpt-4o", provider := "serper", max_steps := 2,
    temperature := 0.0, dbg := false }

/-- The initial state of `Agent.run` for question `"q?"` on clock reading
`"T"`. -/
def st0 : AgentState :=
  { messages := buildReactMessages "q?" "T", llmCalls := [], invocations := [] }

def mEarly : AssistantMsg :=
  { content := some "  Final Answer: 42  ", tool_calls := [] }

def oracleEarly : LlmOracle := fun _ _ _ => some mEarly

def tcWiki : ToolCall :=
  { id := "a", type := "function", name := "wikipedia", arguments := "" }

def tcWiki2 : ToolCall :=
  { id := "b", type := "function", name := "wikipedia2", arguments := "" }

def mTwoCalls : AssistantMsg :=
  { content := some "thinking", tool_calls := [tcWiki, tcWiki2] }

def oracleTwoCalls : LlmOracle := fun _ _ _ => some mTwoCalls

def tcBadArgs : ToolCall :=
  { id := "1", type := "function", name := "google", arguments := "[1]" }

def oracleBadArgs : LlmOracle := fun _ _ _ =>
  some { content := some "", tool_calls := [tcBadArgs] }

def tcCalcEmpty : ToolCall :=
  { id := "9", type := "function", name := "calculator", arguments := "\x7b\x7d" }

def mCalcEmpty : AssistantMsg :=
  { content := some "", tool_calls := [tcCalcEmpty] }

def oracleCalcEmpty : LlmOracle := fun _ _ _ => some mCalcEmpty

/-!
## C1: at most one tool invocation per round, none on the final round
-/

/-- C1: in every execution of `Agent.run` with `max_steps ≥ 1`, the
invocation log's round numbers strictly increase (hence at most one
dispatch per round), every dispatch happens strictly before the final
round, every backend call made on the final round carries no tool
specification, and any round's single dispatch is derived from the
*first* tool request of that round's assistant message. -/
theorem agent_one_tool_per_round (cfg : AgentConfig) (parse : String → Option JValue)
    (search : JValue → JValue → Except String String) (oracle : LlmOracle)
    (today query : String) (_hmax : 1 ≤ cfg.max_steps) :
    List.Pairwise (fun a b : Invocation => a.step < b.step)
      (runAgent cfg parse search oracle today query).invocations ∧
    (∀ i ∈ (runAgent cfg parse search oracle today query).invocations,
      1 ≤ i.step ∧ i.step < cfg.max_steps) ∧
    (∀ c ∈ (runAgent cfg parse search oracle today query).llmCalls,
      c.step = cfg.max_steps → c.tools = none) ∧
    (∀ step fuel st,
      outInv (stepRound cfg parse search oracle query step fuel st) = st.invocations ∨
      (1 < fuel ∧ ∃ m tc rest args,
        oracle (preMsgs query step fuel st.messages) (useTools search fuel)
            (tokBudget cfg.model fuel) = some m ∧
        m.tool_calls = tc :: rest ∧
        outInv (stepRound cfg parse search oracle query step fuel st) =
          st.invocations ++ [{ step := step, name := pyStrip tc.name, args := args }])) := by
  unfold runAgent
  obtain ⟨hpw, hbound⟩ := runSteps_inv_steps cfg parse search oracle query cfg.max_steps 1
    { messages := buildReactMessages query today, llmCalls := [], invocations := [] }
    (by intro i hi; cases hi) List.Pairwise.nil (le_refl 1)
  refine ⟨hpw, ?_, ?_, fun step fuel st => outInv_stepRound cfg parse search oracle query step fuel st⟩
  · intro i hi
    rcases hbound i hi with ⟨h1, h2⟩ | habs
    · exact ⟨h1, by omega⟩
    · cases habs
  · intro c hc hcs
    rcases runSteps_llm_tools cfg parse search oracle query cfg.max_steps 1
      { messages := buildReactMessages query today, llmCalls := [], invocations := [] }
      c hc with habs | ⟨h1, h2, h3⟩
    · cases habs
    · rw [h3, hcs]
      have harg : 1 + cfg.max_steps - cfg.max_steps = 1 := by omega
      rw [harg]
      rfl

/-- C1 witness: the invariants hold on a concrete two-round execution. -/
theorem agent_one_tool_per_round_witness :
    1 ≤ cfg2.max_steps ∧
    (List.Pairwise (fun a b : Invocation => a.step < b.step)
      (runAgent cfg2 demoParse demoSearch oracleEarly "T" "q?").invocations ∧
    (∀ i ∈ (runAgent cfg2 demoParse demoSearch oracleEarly "T" "q?").invocations,
      1 ≤ i.step ∧ i.step < cfg2.max_steps) ∧
    (∀ c ∈ (runAgent cfg2 demoParse demoSearch oracleEarly "T" "q?").llmCalls,
      c.step = cfg2.max_steps → c.tools = none) ∧
    (∀ step fuel st,
      outInv (stepRound cfg2 demoParse demoSearch oracleEarly "q?" step fuel st) =
        st.invocations ∨
      (1 < fuel ∧ ∃ m tc rest args,
        oracleEarly (preMsgs "q?" step fuel st.messages) (useTools demoSearch fuel)
            (tokBudget cfg2.model fuel) = some m ∧
        m.tool_calls = tc :: rest ∧
        outInv (stepRound cfg2 demoParse demoSearch oracleEarly "q?" step fuel st) =
          st.invocations ++ [{ step := step, name := pyStrip tc.name, args := args }]))) :=
  ⟨by decide, agent_one_tool_per_round cfg2 demoParse demoSearch oracleEarly "T" "q?" (by decide)⟩

/-!
## C2: termination bounds; crash on non-object JSON arguments
-/

/-- C2 counterexample: a backend whose tool call carries arguments `"[1]"`
(valid JSON, not an object) drives `Agent.run` into the uncaught
`TypeError` at `args["provider"] = ...` (agent.py 317): the run does not
return a string. -/
theorem agent_crash_on_nonobject_args_cex :
    (runAgent cfg2 demoParse demoSearch oracleBadArgs "T" "q?").result =
      .error "TypeError: list indices must be integers or slices, not str" ∧
    exceptIsOk (runAgent cfg2 demoParse demoSearch oracleBadArgs "T" "q?").result = false :=
  ⟨rfl, rfl⟩

/-- C2 (amended): for `max_rounds ≥ 1`, `run` makes at most `max_rounds`
backend calls and at most `max_rounds - 1` tool invocations; and whenever
every tool-call arguments string parses to a JSON object or fails to
parse, it returns a string (modelled tool results are JSON-serializable;
see `pyEval`). -/
theorem agent_termination_bounds (cfg : AgentConfig) (parse : String → Option JValue)
    (search : JValue → JValue → Except String String) (oracle : LlmOracle)
    (today query : String) (_hmax : 1 ≤ cfg.max_steps) :
    (runAgent cfg parse search oracle today query).llmCalls.length ≤ cfg.max_steps ∧
    (runAgent cfg parse search oracle today query).invocations.length ≤ cfg.max_steps - 1 ∧
    ((∀ s, parse s = none ∨ ∃ kvs, parse s = some (.obj kvs)) →
      exceptIsOk (runAgent cfg parse search oracle today query).result = true) := by
  unfold runAgent
  refine ⟨?_, ?_, fun HP => runSteps_noCrash cfg parse search oracle query HP cfg.max_steps 1 _⟩
  · have := runSteps_llm_len cfg parse search oracle query cfg.max_steps 1
      { messages := buildReactMessages query today, llmCalls := [], invocations := [] }
    simpa using this
  · have := runSteps_inv_len cfg parse search oracle query cfg.max_steps 1
      { messages := buildReactMessages query today, llmCalls := [], invocations := [] }
    simpa using this

/-- C2 witness: the bounds and the no-crash conclusion on a concrete
execution whose parses are all objects or failures. -/
theorem agent_termination_bounds_witness :
    1 ≤ cfg2.max_steps ∧
    ((runAgent cfg2 demoParse demoSearch oracleCalcEmpty "T" "q?").llmCalls.length ≤ cfg2.max_steps ∧
    (runAgent cfg2 demoParse demoSearch oracleCalcEmpty "T" "q?").invocations.length ≤ cfg2.max_steps - 1 ∧
    ((∀ s, demoParse s = none ∨ ∃ kvs, demoParse s = some (.obj kvs)) →
      exceptIsOk (runAgent cfg2 demoParse demoSearch oracleCalcEmpty "T" "q?").result = true)) :=
  ⟨by decide,
    agent_termination_bounds cfg2 demoParse demoSearch oracleCalcEmpty "T" "q?" (by decide)⟩

/-!
## C3: early exit
-/

/-- C3 counterexample: the appended assistant turn's content is the raw
backend content, but `run` returns the *stripped* content, so with
leading/trailing whitespace the returned string is not exactly the
appended assistant content. -/
theorem agent_early_exit_returns_stripped_cex :
    (runAgent cfg2 demoParse demoSearch oracleEarly "T" "q?").messages[2]? =
      some (.assistant "  Final Answer: 42  " []) ∧
    (runAgent cfg2 demoParse demoSearch oracleEarly "T" "q?").result = .ok "Final Answer: 42" ∧
    ("  Final Answer: 42  " : String) ≠ "Final Answer: 42" :=
  ⟨rfl, rfl, by decide⟩

/-- C3 (amended): whenever a round's assistant content contains
`Final Answer:`, or both `Premise:` and `Verdict:`, the run returns the
*stripped* assistant content immediately: exactly one more backend call
is logged, no tool is invoked in that round, and the loop stops even
though `fuel` rounds remained. -/
theorem agent_early_exit (cfg : AgentConfig) (parse : String → Option JValue)
    (search : JValue → JValue → Except String String) (oracle : LlmOracle)
    (query : String) (step fuel : Nat) (st : AgentState) (m : AssistantMsg)
    (hor : oracle (preMsgs query step (fuel + 1) st.messages) (useTools search (fuel + 1))
        (tokBudget cfg.model (fuel + 1)) = some m)
    (hex : earlyExit (pyStrip (m.content.getD "")) = true) :
    runSteps cfg parse search oracle query (fuel + 1) step st =
      { result := .ok (pyStrip (m.content.getD "")),
        messages := preMsgs query step (fuel + 1) st.messages ++ [assistantToMessage m],
        llmCalls := st.llmCalls ++ [{ step := step, tools := useTools search (fuel + 1),
                                      maxTokens := tokBudget cfg.model (fuel + 1) }],
        invocations := st.invocations } := by
  rw [runSteps]
  have hstep : stepRound cfg parse search oracle query step (fuel + 1) st =
      .done { result := .ok (pyStrip (m.content.getD "")),
              messages := preMsgs query step (fuel + 1) st.messages ++ [assistantToMessage m],
              llmCalls := st.llmCalls ++ [{ step := step, tools := useTools search (fuel + 1),
                                            maxTokens := tokBudget cfg.model (fuel + 1) }],
              invocations := st.invocations } := by
    simp only [stepRound, hor, hex, if_true]
  rw [hstep]

/-- C3 witness: the amended statement at the concrete early-exit
execution. -/
theorem agent_early_exit_witness :
    oracleEarly (preMsgs "q?" 1 2 st0.messages) (useTools demoSearch 2)
        (tokBudget cfg2.model 2) = some mEarly ∧
    earlyExit (pyStrip (mEarly.content.getD "")) = true ∧
    runSteps cfg2 demoParse demoSearch oracleEarly "q?" 2 1 st0 =
      { result := .ok (pyStrip (mEarly.content.getD "")),
        messages := preMsgs "q?" 1 2 st0.messages ++ [assistantToMessage mEarly],
        llmCalls := st0.llmCalls ++ [{ step := 1, tools := useTools demoSearch 2,
                                       maxTokens := tokBudget cfg2.model 2 }],
        invocations := st0.invocations } :=
  ⟨rfl, rfl, agent_early_exit cfg2 demoParse demoSearch oracleEarly "q?" 1 1 st0 mEarly rfl rfl⟩

/-!
## C4: tool requests per assistant turn
-/

/-- C4 counterexample: `_assistant_message_to_dict` copies the backend's
tool-call list verbatim, so when the backend returns two tool calls the
appended assistant turn carries two tool requests. -/
theorem assistant_turn_two_tool_requests_cex :
    (runAgent cfg2 demoParse demoSearch oracleTwoCalls "T" "q?").messages[2]? =
      some (.assistant "thinking" [tcWiki, tcWiki2]) ∧
    [tcWiki, tcWiki2].length = 2 :=
  ⟨rfl, rfl⟩

/-- C4 (amended): the assistant turn is appended verbatim with the
backend's full tool-request list (possibly more than one, also on the
final round); the *dispatch* discipline holds instead: on the final round
nothing is invoked, and otherwise at most the first listed request of the
turn is invoked. -/
theorem agent_tool_requests_per_turn (cfg : AgentConfig) (parse : String → Option JValue)
    (search : JValue → JValue → Except String String) (oracle : LlmOracle)
    (query : String) (step fuel : Nat) (st : AgentState) (m : AssistantMsg)
    (hor : oracle (preMsgs query step fuel st.messages) (useTools search fuel)
        (tokBudget cfg.model fuel) = some m) :
    (∃ extra, outMsgs (stepRound cfg parse search oracle query step fuel st) =
       (preMsgs query step fuel st.messages ++ [assistantToMessage m]) ++ extra) ∧
    (fuel = 1 → outInv (stepRound cfg parse search oracle query step fuel st) = st.invocations) ∧
    (outInv (stepRound cfg parse search oracle query step fuel st) = st.invocations ∨
      (1 < fuel ∧ ∃ m' tc rest args,
        oracle (preMsgs query step fuel st.messages) (useTools search fuel)
            (tokBudget cfg.model fuel) = some m' ∧
        m'.tool_calls = tc :: rest ∧
        outInv (stepRound cfg parse search oracle query step fuel st) =
          st.invocations ++ [{ step := step, name := pyStrip tc.name, args := args }])) := by
  refine ⟨outMsgs_stepRound cfg parse search oracle query step fuel st m hor, ?_,
    outInv_stepRound cfg parse search oracle query step fuel st⟩
  intro hfin
  rcases outInv_stepRound cfg parse search oracle query step fuel st with h | ⟨hf, _⟩
  · exact h
  · omega

/-- C4 witness: the amended statement at a concrete final round whose
assistant turn carries two tool requests. -/
theorem agent_tool_requests_per_turn_witness :
    oracleTwoCalls (preMsgs "q?" 1 1 st0.messages) (useTools demoSearch 1)
        (tokBudget cfg2.model 1) = some mTwoCalls ∧
    ((∃ extra, outMsgs (stepRound cfg2 demoParse demoSearch oracleTwoCalls "q?" 1 1 st0) =
       (preMsgs "q?" 1 1 st0.messages ++ [assistantToMessage mTwoCalls]) ++ extra) ∧
    (1 = 1 → outInv (stepRound cfg2 demoParse demoSearch oracleTwoCalls "q?" 1 1 st0) =
      st0.invocations) ∧
    (outInv (stepRound cfg2 demoParse demoSearch oracleTwoCalls "q?" 1 1 st0) = st0.invocations ∨
      (1 < 1 ∧ ∃ m' tc rest args,
        oracleTwoCalls (preMsgs "q?" 1 1 st0.messages) (useTools demoSearch 1)
            (tokBudget cfg2.model 1) = some m' ∧
        m'.tool_calls = tc :: rest ∧
        outInv (stepRound cfg2 demoParse demoSearch oracleTwoCalls "q?" 1 1 st0) =
          st0.invocations ++ [{ step := 1, name := pyStrip tc.name, args := args }]))) :=
  ⟨rfl, agent_tool_requests_per_turn cfg2 demoParse demoSearch oracleTwoCalls "q?" 1 1 st0
    mTwoCalls rfl⟩

/-!
## C5: the calculator evaluates non-arithmetic expressions
-/

/-- C5 (code bug): `_calc_impl` evaluates arbitrary expressions: the
non-arithmetic string expression `'a' * 3` is *accepted* and yields
`{ok: true, result: "aaa"}` instead of being rejected, while arithmetic
also works; and a dict argument never raises (the wrapper returns). -/
theorem calculator_accepts_non_arithmetic :
    calcFunc (.obj [("expression", .str "\x27a\x27 * 3")]) =
      .ok (.obj [("ok", .bool true), ("result", .str "aaa")]) ∧
    calcFunc (.obj [("expression", .str "2+2*3")]) =
      .ok (.obj [("ok", .bool true), ("result", .num 8)]) ∧
    calcFunc (.obj [("expression", .str "\x27a\x27 + 1")]) =
      .ok (.obj [("ok", .bool false),
        ("error", .str "TypeError: unsupported operand type(s) for +")]) :=
  ⟨rfl, rfl, rfl⟩

/-!
## C6: no schema validation before dispatch
-/

/-- C6 counterexample: the calculator is dispatched with arguments `{}`,
which violate its schema's `required: ["expression"]`; no validation
happens and no system turn reports a validation failure — the tool runs
and its own `{ok: false, error}` payload is what enters the transcript. -/
theorem agent_no_schema_validation_cex :
    schemaRequiredOk calculatorSchema (.obj []) = false ∧
    (runAgent cfg2 demoParse demoSearch oracleCalcEmpty "T" "q?").invocations =
      [{ step := 1, name := "calculator", args := .obj [] }] ∧
    (runAgent cfg2 demoParse demoSearch oracleCalcEmpty "T" "q?").result = .ok "" :=
  ⟨rfl, rfl, rfl⟩

/-- C6 (amended): a known tool is dispatched with the parsed arguments
as-is (after the google provider default), unconditionally — no schema
check guards the dispatch, whatever the arguments are. -/
theorem agent_dispatch_unvalidated (cfg : AgentConfig) (parse : String → Option JValue)
    (search : JValue → JValue → Except String String) (oracle : LlmOracle)
    (query : String) (step fuel : Nat) (st : AgentState) (m : AssistantMsg)
    (tc : ToolCall) (rest : List ToolCall) (args : JValue) (tool : Tool)
    (hor : oracle (preMsgs query step fuel st.messages) (useTools search fuel)
        (tokBudget cfg.model fuel) = some m)
    (hne : earlyExit (pyStrip (m.content.getD "")) = false)
    (htc : m.tool_calls = tc :: rest)
    (hfuel : 1 < fuel)
    (hres : resolveArgs cfg (pyStrip tc.name)
        ((parse (if tc.arguments = "" then "\x7b\x7d" else tc.arguments)).getD (.obj [])) =
      .ok args)
    (hreg : regLookup (TOOL_REGISTRY search) (pyStrip tc.name) = some tool) :
    outInv (stepRound cfg parse search oracle query step fuel st) =
      st.invocations ++ [{ step := step, name := pyStrip tc.name, args := args }] := by
  simp only [stepRound, hor, hne, Bool.false_eq_true, if_false, htc, hfuel, if_true,
    toolBranch, hres, hreg]
  cases hfn : tool.func args with
  | error e => simp only [hfn, outInv]
  | ok r0 => simp only [hfn, outInv]

/-- C6 witness: the unvalidated dispatch at the concrete schema-violating
execution. -/
theorem agent_dispatch_unvalidated_witness :
    oracleCalcEmpty (preMsgs "q?" 1 2 st0.messages) (useTools demoSearch 2)
        (tokBudget cfg2.model 2) = some mCalcEmpty ∧
    earlyExit (pyStrip (mCalcEmpty.content.getD "")) = false ∧
    mCalcEmpty.tool_calls = [tcCalcEmpty] ∧
    (1 : Nat) < 2 ∧
    resolveArgs cfg2 (pyStrip tcCalcEmpty.name)
        ((demoParse (if tcCalcEmpty.arguments = "" then "\x7b\x7d" else tcCalcEmpty.arguments)).getD
          (.obj [])) = .ok (.obj []) ∧
    regLookup (TOOL_REGISTRY demoSearch) (pyStrip tcCalcEmpty.name) = some calculatorTool ∧
    outInv (stepRound cfg2 demoParse demoSearch oracleCalcEmpty "q?" 1 2 st0) =
      st0.invocations ++ [{ step := 1, name := pyStrip tcCalcEmpty.name, args := .obj [] }] :=
  ⟨rfl, rfl, rfl, by decide, rfl, rfl,
    agent_dispatch_unvalidated cfg2 demoParse demoSearch oracleCalcEmpty "q?" 1 2 st0
      mCalcEmpty tcCalcEmpty [] (.obj []) calculatorTool rfl rfl rfl (by decide) rfl rfl⟩

/-!
## C7: unknown tool names are reported and the loop continues
-/

/-- C7: when a non-final round's assistant turn requests an unregistered
tool, the round appends a system turn listing the registered tools
(`calculator, google`), invokes nothing, and the loop proceeds to the
next round. -/
theorem agent_unknown_tool (cfg : AgentConfig) (parse : String → Option JValue)
    (search : JValue → JValue → Except String String) (oracle : LlmOracle)
    (query : String) (step fuel : Nat) (st : AgentState) (m : AssistantMsg)
    (tc : ToolCall) (rest : List ToolCall)
    (hor : oracle (preMsgs query step (fuel + 2) st.messages) (useTools search (fuel + 2))
        (tokBudget cfg.model (fuel + 2)) = some m)
    (hne : earlyExit (pyStrip (m.content.getD "")) = false)
    (htc : m.tool_calls = tc :: rest)
    (hreg : regLookup (TOOL_REGISTRY search) (pyStrip tc.name) = none) :
    availableListing (TOOL_REGISTRY search) = "calculator, google" ∧
    runSteps cfg parse search oracle query (fuel + 2) step st =
      runSteps cfg parse search oracle query (fuel + 1) (step + 1)
        { messages := (preMsgs query step (fuel + 2) st.messages ++ [assistantToMessage m]) ++
            [.system ("Requested tool \x27" ++ pyStrip tc.name ++
              "\x27 is not available. Available: " ++
              availableListing (TOOL_REGISTRY search) ++ ".")],
          llmCalls := st.llmCalls ++ [{ step := step, tools := useTools search (fuel + 2),
                                        maxTokens := tokBudget cfg.model (fuel + 2) }],
          invocations := st.invocations } := by
  have hng : ¬ (pyStrip tc.name = "google") := by
    intro hg
    rw [hg] at hreg
    simp [TOOL_REGISTRY, regLookup] at hreg
  refine ⟨rfl, ?_⟩
  rw [runSteps]
  have hf : 1 < fuel + 2 := by omega
  have hstep : stepRound cfg parse search oracle query step (fuel + 2) st =
      .next { messages := (preMsgs query step (fuel + 2) st.messages ++ [assistantToMessage m]) ++
                [.system ("Requested tool \x27" ++ pyStrip tc.name ++
                  "\x27 is not available. Available: " ++
                  availableListing (TOOL_REGISTRY search) ++ ".")],
              llmCalls := st.llmCalls ++ [{ step := step, tools := useTools search (fuel + 2),
                                            maxTokens := tokBudget cfg.model (fuel + 2) }],
              invocations := st.invocations } := by
    simp only [stepRound, hor, hne, Bool.false_eq_true, if_false, htc, hf, if_true,
      toolBranch, resolveArgs, hng, hreg]
  rw [hstep]

/-- C7 witness: the concrete `wikipedia` request on round 1 of 2. -/
theorem agent_unknown_tool_witness :
    oracleTwoCalls (preMsgs "q?" 1 2 st0.messages) (useTools demoSearch 2)
        (tokBudget cfg2.model 2) = some mTwoCalls ∧
    earlyExit (pyStrip (mTwoCalls.content.getD "")) = false ∧
    mTwoCalls.tool_calls = tcWiki :: [tcWiki2] ∧
    regLookup (TOOL_REGISTRY demoSearch) (pyStrip tcWiki.name) = none ∧
    (availableListing (TOOL_REGISTRY demoSearch) = "calculator, google" ∧
    runSteps cfg2 demoParse demoSearch oracleTwoCalls "q?" 2 1 st0 =
      runSteps cfg2 demoParse demoSearch oracleTwoCalls "q?" 1 2
        { messages := (preMsgs "q?" 1 2 st0.messages ++ [assistantToMessage mTwoCalls]) ++
            [.system ("Requested tool \x27" ++ pyStrip tcWiki.name ++
              "\x27 is not available. Available: " ++
              availableListing (TOOL_REGISTRY demoSearch) ++ ".")],
          llmCalls := st0.llmCalls ++ [{ step := 1, tools := useTools demoSearch 2,
                                         maxTokens := tokBudget cfg2.model 2 }],
          invocations := st0.invocations }) :=
  ⟨rfl, rfl, rfl, rfl,
    agent_unknown_tool cfg2 demoParse demoSearch oracleTwoCalls "q?" 1 0 st0
      mTwoCalls tcWiki [tcWiki2] rfl rfl rfl rfl⟩

/-!
## C8 and C10: evidence ordering and truncation
-/

/-- The kept rows are sorted by date key, undated first. -/
theorem keptRows_sorted (organic related qa : List EvRow) (kg ab : EvRow)
    (nOrg nRel nQa : Nat) :
    List.Sorted rowLe (keptRows organic related qa kg ab nOrg nRel nQa) := by
  unfold keptRows
  exact List.Pairwise.filter nonBlank (List.sorted_insertionSort rowLe _)

def rowJan2023 : EvRow := { blankRow with date := some "Jan 1, 2023", title := some "A" }

def rowMar2021 : EvRow := { blankRow with date := some "Mar 5, 2021", title := some "B" }

def rowUndated : EvRow := { blankRow with title := some "C" }

/-- C8: the rendered evidence block lists the normalized rows of all
categories, sorted ascending by date with undated rows first, truncated
to the caller's evidence budget; in particular the three-entry scenario
renders undated, then `Mar 5, 2021`, then `Jan 1, 2023`. -/
theorem freshprompt_evidence_order :
    (∀ (organic related qa : List EvRow) (kg ab : EvRow) (nOrg nRel nQa nEvid : Nat),
      List.Sorted rowLe (keptRows organic related qa kg ab nOrg nRel nQa) ∧
      (keptRows organic related qa kg ab nOrg nRel nQa).Perm
        ((dfRows organic related qa kg ab nOrg nRel nQa).filter nonBlank) ∧
      evidenceRows organic related qa kg ab nOrg nRel nQa nEvid =
        (keptRows organic related qa kg ab nOrg nRel nQa).drop
          ((keptRows organic related qa kg ab nOrg nRel nQa).length - nEvid)) ∧
    evidenceRows [rowJan2023, rowMar2021, rowUndated] [] [] blankRow blankRow 3 0 0 6 =
      [rowUndated, rowMar2021, rowJan2023] ∧
    freshprompt_format "q" "" [rowJan2023, rowMar2021, rowUndated] [] [] blankRow blankRow
        3 0 0 6 =
      "\n\n\nquery: q" ++ renderRow rowUndated ++ renderRow rowMar2021 ++
        renderRow rowJan2023 ++ "\n\nquestion: q" := by
  refine ⟨?_, rfl, rfl⟩
  intro organic related qa kg ab nOrg nRel nQa nEvid
  refine ⟨keptRows_sorted organic related qa kg ab nOrg nRel nQa, ?_, rfl⟩
  unfold keptRows
  exact (List.perm_insertionSort rowLe _).filter nonBlank

/-- C10: when the kept rows exceed the evidence budget, the block keeps
the *last* `num_retrieved_evidences` rows of the date-ascending order:
every dropped row's date key is at most every kept row's (undated and
oldest rows are dropped). -/
theorem freshprompt_truncation_keeps_latest
    (organic related qa : List EvRow) (kg ab : EvRow) (nOrg nRel nQa nEvid : Nat)
    (hlen : nEvid < (keptRows organic related qa kg ab nOrg nRel nQa).length) :
    (evidenceRows organic related qa kg ab nOrg nRel nQa nEvid).length = nEvid ∧
    evidenceRows organic related qa kg ab nOrg nRel nQa nEvid =
      (keptRows organic related qa kg ab nOrg nRel nQa).drop
        ((keptRows organic related qa kg ab nOrg nRel nQa).length - nEvid) ∧
    ∀ d ∈ (keptRows organic related qa kg ab nOrg nRel nQa).take
        ((keptRows organic related qa kg ab nOrg nRel nQa).length - nEvid),
      ∀ k ∈ evidenceRows organic related qa kg ab nOrg nRel nQa nEvid, rowLe d k := by
  refine ⟨?_, rfl, ?_⟩
  · unfold evidenceRows
    rw [List.length_drop]
    omega
  · have hs := keptRows_sorted organic related qa kg ab nOrg nRel nQa
    have hsplit := List.take_append_drop
      ((keptRows organic related qa kg ab nOrg nRel nQa).length - nEvid)
      (keptRows organic related qa kg ab nOrg nRel nQa)
    rw [← hsplit] at hs
    have := (List.pairwise_append.mp hs).2.2
    intro d hd k hk
    exact this d hd k hk

def rowsC10 : List EvRow := [rowJan2023, rowMar2021, rowUndated]

/-- C10 witness: with budget 2 and three kept rows, the undated row is
dropped and the two dated rows are kept in ascending order. -/
theorem freshprompt_truncation_keeps_latest_witness :
    (2 < (keptRows rowsC10 [] [] blankRow blankRow 3 0 0).length) ∧
    ((evidenceRows rowsC10 [] [] blankRow blankRow 3 0 0 2).length = 2 ∧
    evidenceRows rowsC10 [] [] blankRow blankRow 3 0 0 2 =
      (keptRows rowsC10 [] [] blankRow blankRow 3 0 0).drop
        ((keptRows rowsC10 [] [] blankRow blankRow 3 0 0).length - 2) ∧
    ∀ d ∈ (keptRows rowsC10 [] [] blankRow blankRow 3 0 0).take
        ((keptRows rowsC10 [] [] blankRow blankRow 3 0 0).length - 2),
      ∀ k ∈ evidenceRows rowsC10 [] [] blankRow blankRow 3 0 0 2, rowLe d k) :=
  ⟨by decide,
    freshprompt_truncation_keeps_latest rowsC10 [] [] blankRow blankRow 3 0 0 2 (by decide)⟩

/-!
## C9: the answer extractor
-/

/-- C9 counterexample: an input that *contains* the line
`Direct Answer: Paris.` but whose first Direct-Answer match is an earlier
line: `re.search` returns the first match, so `London.` is extracted. -/
theorem extract_direct_answer_first_match_cex :
    (pyLines "Direct Answer: London.\nDirect Answer: Paris.").contains
      "Direct Answer: Paris." = true ∧
    extract_direct_answer "Direct Answer: London.\nDirect Answer: Paris." = "London." ∧
    ("London." : String) ≠ "Paris." :=
  ⟨rfl, rfl, by decide⟩

/-- The tail of the extractor equals spec strategies 3-5 in order. -/
theorem verdictFallback_eq (t : String) :
    verdictFallback (pyStrip t) =
      (match stratVerdict t with
       | some v => v
       | none =>
         match stratFirstLine t with
         | some v => v
         | none => pyStrip t) := by
  unfold verdictFallback stratVerdict stratFirstLine
  cases h4 : reSearch tryVerdictAt (pyStrip t).toList with
  | some cap => simp only [h4, Option.map_some']
  | none => simp only [h4, Option.map_none']

/-- C9 (amended): the extractor is total and equals the spec's prioritized
strategy chain (strategies 1-4 with the full trimmed text as default);
in particular the input `Direct Answer: Paris.` extracts `Paris.`.
When several Direct-Answer lines occur, the first match wins. -/
theorem extract_direct_answer_strategy_chain :
    (∀ t, extract_direct_answer t = specStrategyChain t) ∧
    extract_direct_answer "Direct Answer: Paris." = "Paris." := by
  refine ⟨?_, rfl⟩
  intro t
  by_cases h0 : pyStrip t = ""
  · unfold extract_direct_answer specStrategyChain stratDirectAnswer stratFinalAnswer
      stratVerdict stratFirstLine
    rw [h0]
    rfl
  · unfold extract_direct_answer specStrategyChain stratDirectAnswer stratFinalAnswer
    rw [if_neg h0]
    cases h1 : reSearch tryDirectAt (pyStrip t).toList with
    | some pr =>
      obtain ⟨cap, rest⟩ := pr
      simp only [h1]
    | none =>
      simp only [h1]
      cases h2 : reSearch tryFinalAt (pyStrip t).toList with
      | some rest =>
        simp only [h2]
        cases h3 : firstNonEmptyLine (pyLines (pyStrip (String.mk rest))) with
        | some l => simp only [h3]
        | none =>
          simp only [h3]
          exact verdictFallback_eq t
      | none =>
        simp only [h2]
        exact verdictFallback_eq t
